import Mathlib

/-!
# kpack: OCI image metadata and rebase engine

A shallow embedding of `pkg/registry/ggcr_image.go`, `pkg/registry/image_rebaser.go`,
`pkg/cnb/cnb_metadata.go` and `pkg/cnb/image_rebaser.go`.

Conventions of the embedding

* A Go `error` is its message (`GoError`); `nil` is `none`.
* An exported function or method of this repository that returns `(T, error)` is a
  function into `T × Option GoError`, so that the value handed back next to an error
  stays visible. A nil pointer, interface or slice result is `none`, respectively `[]`.
* A callee whose error is tested right after every call (library getters such as
  `Layers()`, `DiffID()`, `ConfigFile()`, and the unexported helpers `configFile` and
  `newV1Image`) is a value of `Except GoError T`.
* A body that can panic (an index out of range, a method call on a nil interface)
  returns an `Outcome`.
* The registry is explicit state: the list of `remote.Write` calls made so far.
-/

namespace kpack

/-- Go `error` value, identified by its message. -/
abbrev GoError := String

/-- Result of running a Go function body: it returns its results, or it panics. -/
inductive Outcome (α : Type) where
  | returns (a : α)
  | panics (msg : String)
  deriving DecidableEq, Repr

deriving instance DecidableEq for Except

/-! ## Go standard library pieces used by the source -/

/-- Pieces of a character list cut at every occurrence of `sep`
(always at least one piece). -/
def splitChars (sep : Char) : List Char → List (List Char)
  | [] => [[]]
  | c :: cs =>
    if c = sep then [] :: splitChars sep cs
    else
      match splitChars sep cs with
      | [] => [[c]]
      | p :: ps => (c :: p) :: ps

/-- Go `strings.Split(s, sep)` for a one-character separator, the only kind the source
uses (`"="`, `":"`, `"@"`): all substrings of `s` between occurrences of `sep`. -/
def stringsSplit (s : String) (sep : Char) : List String :=
  (splitChars sep s.data).map String.mk

/-- Go slice indexing `xs[i]`: the element, or a run-time panic when `i` is out of range. -/
def index {α : Type} (xs : List α) (i : Nat) : Outcome α :=
  match xs.get? i with
  | some x => .returns x
  | none => .panics "index out of range"

/-- Go map read `m[key]` on a `map[string]string`: the zero value `""` when absent. -/
def mapIndex (m : List (String × String)) (key : String) : String :=
  (m.lookup key).getD ""

/-- Instant of a `time.Time`; `0` stands for the zero value `time.Time{}`. -/
abbrev Time := Nat

/-! ## go-containerregistry `v1` data -/

namespace v1

/-- Text of a `v1.Hash` as `String()` prints it. -/
abbrev Hash := String

/-- What a `v1.Layer` answers to the two calls the code makes on it. -/
structure Layer where
  Digest : Except GoError Hash
  DiffID : Except GoError Hash
  deriving DecidableEq, Repr

/-- Fields of `v1.Config` that the code reads. -/
structure Config where
  Env : List String
  Labels : List (String × String)
  deriving DecidableEq, Repr

/-- An entry of the history list of a config file (`v1.History`), by its text. -/
abbrev History := String

/-- Fields of `v1.ConfigFile` that the code and `mutate.Rebase` read. -/
structure ConfigFile where
  Created : Time
  Config : Config
  History : List History
  deriving DecidableEq, Repr

/-- What a `v1.Image` answers to `Layers()` and `ConfigFile()`
(`ConfigFile()` may hand back a nil pointer without an error). -/
structure Image where
  Layers : Except GoError (List Layer)
  ConfigFile : Except GoError (Option ConfigFile)
  deriving DecidableEq, Repr

end v1

namespace registry

/-! ## `pkg/registry/ggcr_image.go`: the sub-image view -/

/-- The struct `subImage` of `ggcr_image.go`. -/
structure subImage where
  img : v1.Image
  topSHA : String
  deriving DecidableEq, Repr

/-- The `for i, l := range all` loop of `subImage.Layers`, on the layers not yet visited:
`seen` holds `all[:i]` in order. -/
def subImage.scan (topSHA : String) : List v1.Layer → List v1.Layer → List v1.Layer × Option GoError
  | _, [] => ([], some "could not find base layer in image")
  | seen, l :: rest =>
    match l.DiffID with
    | .error err => ([], some err)
    | .ok d =>
      if d = topSHA then (seen ++ [l], none)
      else subImage.scan topSHA (seen ++ [l]) rest

/-- The method `subImage.Layers` of `ggcr_image.go`. -/
def subImage.Layers (si : subImage) : List v1.Layer × Option GoError :=
  match si.img.Layers with
  | .error err => ([], some err)
  | .ok all => subImage.scan si.topSHA [] all

end registry

/-! ## Library and environment pieces the registry code calls -/

/-- Message of `errors.Wrap(err, msg)` and `errors.Wrapf(err, format, args...)`
of `github.com/pkg/errors`, `msg` being the formatted text. -/
def errorsWrap (err : GoError) (msg : String) : GoError :=
  msg ++ ": " ++ err

/-- How a caller that tests `err != nil` right after the call reads a `(T, error)` pair. -/
def checked {α : Type} (r : α × Option GoError) : Except GoError α :=
  match r.2 with
  | some err => .error err
  | none => .ok r.1

namespace name

/-- What the code reads of a parsed `name.Reference`: `ref.Context().Registry` and
`ref.Context().Name()` (written `Repository` here), and the tag or digest. -/
structure Reference where
  Registry : String
  Repository : String
  Identifier : String
  deriving DecidableEq, Repr

end name

namespace authn

/-- Credential as `authn.Authenticator` carries it. -/
abbrev Authenticator := String

/-- The interface `authn.Keychain`: its one method `Resolve`, asked for a registry. -/
structure Keychain where
  Resolve : String → Except GoError Authenticator

end authn

/-- What lies outside the program: the clock, the reference grammar of
go-containerregistry, and the registry as the `remote` package reaches it. -/
structure World where
  /-- `time.Now()`. -/
  Now : Time
  /-- `name.ParseReference(s, name.WeakValidation)`. -/
  ParseReference : String → Except GoError name.Reference
  /-- `remote.Image(ref, remote.WithAuth(auth), ...)`. -/
  Image : name.Reference → authn.Authenticator → Except GoError v1.Image
  /-- The manifest digest `img.Digest()` of an image. -/
  Digest : v1.Image → Except GoError v1.Hash
  /-- Whether the registry refuses a manifest push to `ref` under `auth`, and with what error. -/
  WriteError : name.Reference → authn.Authenticator → Option GoError

/-- One call of `remote.Write`: its arguments (`auth` is `none` when the keychain option
could not be resolved) and the error it returned. -/
structure WriteCall where
  ref : name.Reference
  image : v1.Image
  auth : Option authn.Authenticator
  err : Option GoError
  deriving DecidableEq, Repr

/-- Registry state: every `remote.Write` call made so far, newest first. The manifests the
registry holds are those of the calls with `err = none`. -/
abbrev RegistryLog := List WriteCall

namespace remote

/-- The call `remote.Write(ref, img, remote.WithAuth(auth))`. The push reads the layers and
the config of the image; when one of the reads fails the call returns that error, otherwise
what the registry answers. -/
def Write (w : World) (log : RegistryLog) (ref : name.Reference) (img : v1.Image)
    (auth : authn.Authenticator) : Option GoError × RegistryLog :=
  let err : Option GoError :=
    match img.Layers with
    | .error e => some e
    | .ok _ =>
      match img.ConfigFile with
      | .error e => some e
      | .ok _ => w.WriteError ref auth
  (err, { ref := ref, image := img, auth := some auth, err := err } :: log)

/-- The call `remote.Write(ref, img, remote.WithAuthFromKeychain(keychain))`: after the
layers are read, the option resolves the credential for the registry of `ref`. -/
def WriteFromKeychain (w : World) (log : RegistryLog) (ref : name.Reference) (img : v1.Image)
    (keychain : authn.Keychain) : Option GoError × RegistryLog :=
  match img.Layers with
  | .error err => (some err, { ref := ref, image := img, auth := none, err := some err } :: log)
  | .ok _ =>
    match keychain.Resolve ref.Registry with
    | .error err => (some err, { ref := ref, image := img, auth := none, err := some err } :: log)
    | .ok auth => Write w log ref img auth

end remote

namespace mutate

/-! go-containerregistry is a dependency, not part of this repository. The definitions of
this section follow `pkg/v1/mutate/rebase.go` and `pkg/v1/mutate/mutate.go` of the library as
this repository uses it: `Rebase` calls only `Layers()` on its `oldBase` argument (the source
relies on that: every other method of `subImage` panics). In the error texts the `%q`
renderings of the image values are left as the format verb. -/

/-- The loop `for i, l := range oldBaseLayers` of `mutate.Rebase`, from index `i` on: the
digest of each old base layer against the digest of `origLayers[i]`. -/
def digestLoop (origLayers : List v1.Layer) : Nat → List v1.Layer → Outcome (Option GoError)
  | _, [] => .returns none
  | i, l :: rest =>
    match l.Digest with
    | .error err =>
      .returns (some ("failed to get digest of layer " ++ toString i ++ " of %q: " ++ err))
    | .ok oldLayerDigest =>
      match index origLayers i with
      | .panics msg => .panics msg
      | .returns o =>
        match o.Digest with
        | .error err =>
          .returns (some ("failed to get digest of layer " ++ toString i ++ " of %q: " ++ err))
        | .ok origLayerDigest =>
          if oldLayerDigest = origLayerDigest then digestLoop origLayers (i + 1) rest
          else
            .returns (some ("image %q is not based on %q (layer " ++ toString i ++ " mismatch)"))

/-- The struct `mutate.Addendum`: a layer to append and its history entry. -/
structure Addendum where
  Layer : v1.Layer
  History : v1.History
  deriving DecidableEq, Repr

/-- The two appending loops of `mutate.Rebase`: for the layers still to append, the first at
index `k` of its image, the addendum made of the layer and of `History[k]` of that image's
config file. `history` is `none` for a nil config file; indexing panics when the history list
is too short. -/
def addendums (history : Option (List v1.History)) : Nat → List v1.Layer → Outcome (List Addendum)
  | _, [] => .returns []
  | k, l :: rest =>
    match history with
    | none => .panics "invalid memory address or nil pointer dereference"
    | some h =>
      match index h k with
      | .panics msg => .panics msg
      | .returns entry =>
        match addendums history (k + 1) rest with
        | .panics msg => .panics msg
        | .returns adds => .returns ({ Layer := l, History := entry } :: adds)

/-- What computing the manifest and config of an appended-to image asks of the appended
layers, in order: the diff ID and then the digest of each. The first error, if any. -/
def computeError : List v1.Layer → Option GoError
  | [] => none
  | l :: rest =>
    match l.DiffID with
    | .error err => some err
    | .ok _ =>
      match l.Digest with
      | .error err => some err
      | .ok _ => computeError rest

/-- The layer list `Layers()` of an appended-to image: one layer per diff ID of its config,
each looked up with `LayerByDiffID`, which answers the layer appended last among those with
that diff ID. -/
def layersByDiffID (ls : List v1.Layer) : List v1.Layer :=
  ls.map (fun l => (ls.reverse.find? (fun x => decide (x.DiffID = l.DiffID))).getD l)

/-- The image that `mutate.Config(empty.Image, config)` followed by `mutate.Append` of
`adds` builds, as what it answers: the empty image has no layers, no history and the zero
creation time. The image is computed when first asked; an error of that computation is the
answer of both calls. -/
def appended (config : v1.Config) (adds : List Addendum) : v1.Image :=
  match computeError (adds.map (fun a => a.Layer)) with
  | some err => { Layers := .error err, ConfigFile := .error err }
  | none =>
    { Layers := .ok (layersByDiffID (adds.map (fun a => a.Layer)))
      ConfigFile := .ok (some
        { Created := 0, Config := config, History := adds.map (fun a => a.History) }) }

/-- Library function `mutate.Rebase(orig, oldBase, newBase)`: "returns a new v1.Image where
the oldBase in orig is replaced by newBase". In the order of the library: it reads
`orig.Layers()` and `oldBase.Layers()`, refuses an old base with more layers than `orig`,
compares the digests layer by layer, reads `orig.ConfigFile()`, starts from the empty image
with the `Config` of `orig`, reads `newBase.Layers()` and `newBase.ConfigFile()`, appends each
new base layer `i` with `newConfig.History[i]`, and then each layer `start + i` of `orig` above
the old base with `origConfig.History[start + i]`. -/
def Rebase (orig : v1.Image) (oldBaseLayers : Except GoError (List v1.Layer))
    (newBase : v1.Image) : Outcome (Except GoError v1.Image) :=
  match orig.Layers with
  | .error err => .returns (.error ("failed to get layers for original: " ++ err))
  | .ok origLayers =>
    match oldBaseLayers with
    | .error err => .returns (.error err)
    | .ok oldLayers =>
      if oldLayers.length > origLayers.length then
        .returns (.error "image %q is not based on %q (too few layers)")
      else
        match digestLoop origLayers 0 oldLayers with
        | .panics msg => .panics msg
        | .returns (some err) => .returns (.error err)
        | .returns none =>
          match orig.ConfigFile with
          | .error err => .returns (.error ("failed to get config for original: " ++ err))
          | .ok none => .panics "invalid memory address or nil pointer dereference"
          | .ok (some origConfig) =>
            match newBase.Layers with
            | .error err =>
              .returns (.error ("could not get new base layers for new base: " ++ err))
            | .ok newBaseLayers =>
              match newBase.ConfigFile with
              | .error err => .returns (.error ("could not get config for new base: " ++ err))
              | .ok newConfig =>
                match addendums (newConfig.map (fun c => c.History)) 0 newBaseLayers with
                | .panics msg => .panics msg
                | .returns newAdds =>
                  match addendums (some origConfig.History) oldLayers.length
                      (origLayers.drop oldLayers.length) with
                  | .panics msg => .panics msg
                  | .returns origAdds =>
                    .returns (.ok (appended origConfig.Config (newAdds ++ origAdds)))

/-- Library function `mutate.CreatedAt(base, created)`: it reads the config file of `base`
and answers the image with the creation time of that config file replaced. -/
def CreatedAt (base : v1.Image) (created : Time) : Outcome (Except GoError v1.Image) :=
  match base.ConfigFile with
  | .error err => .returns (.error err)
  | .ok none => .panics "invalid memory address or nil pointer dereference"
  | .ok (some cf) => .returns (.ok { base with ConfigFile := .ok (some { cf with Created := created }) })

end mutate

namespace registry

/-! ## `pkg/registry/ggcr_image.go`: the remote image accessor -/

/-- The struct `GoContainerRegistryImage`; `keychain` is `none` for a nil interface value. -/
structure GoContainerRegistryImage where
  image : v1.Image
  repoName : String
  keychain : Option authn.Keychain

/-- Any implementation of the `RemoteImage` interface other than
`*GoContainerRegistryImage` (a test double, say), given by what its read methods answer. -/
structure OtherRemoteImage where
  CreatedAt : Time × Option GoError
  Env : String → String × Option GoError
  Label : String → String × Option GoError
  Identifier : String × Option GoError

/-- A value of the interface `RemoteImage`, by dynamic type. -/
inductive RemoteImage where
  | ggcr (i : GoContainerRegistryImage)
  | other (o : OtherRemoteImage)

/-- The function `newV1Image` of `ggcr_image.go`. -/
def newV1Image (w : World) (keychain : authn.Keychain) (repoName : String) :
    Except GoError v1.Image :=
  match w.ParseReference repoName with
  | .error err => .error (errorsWrap err ("parse reference '" ++ repoName ++ "'"))
  | .ok ref =>
    match keychain.Resolve ref.Registry with
    | .error err => .error (errorsWrap err ("resolving keychain for '" ++ ref.Registry ++ "'"))
    | .ok auth =>
      match w.Image ref auth with
      | .error err => .error (errorsWrap err ("connect to registry store '" ++ repoName ++ "'"))
      | .ok image => .ok image

/-- The function `NewGoContainerRegistryImage` of `ggcr_image.go`. -/
def NewGoContainerRegistryImage (w : World) (repoName : String) (keychain : authn.Keychain) :
    Option GoContainerRegistryImage × Option GoError :=
  match newV1Image w keychain repoName with
  | .error err => (none, some err)
  | .ok image => (some { repoName := repoName, image := image, keychain := some keychain }, none)

/-- The method `configFile` of `ggcr_image.go`. -/
def GoContainerRegistryImage.configFile (i : GoContainerRegistryImage) :
    Except GoError v1.ConfigFile :=
  match i.image.ConfigFile with
  | .error err => .error (errorsWrap err ("failed to get config for image '" ++ i.repoName ++ "'"))
  | .ok none => .error ("failed to get config for image '" ++ i.repoName ++ "'")
  | .ok (some cfg) => .ok cfg

/-- The method `CreatedAt` of `ggcr_image.go` (`UTC()` keeps the instant). -/
def GoContainerRegistryImage.CreatedAt (i : GoContainerRegistryImage) : Time × Option GoError :=
  match i.configFile with
  | .error err => (0, some err)
  | .ok cfg => (cfg.Created, none)

/-- The loop `for _, envVar := range cfg.Config.Env` of `Env`, on the entries not yet
visited. -/
def GoContainerRegistryImage.envLoop (key : String) :
    List String → Outcome (String × Option GoError)
  | [] => .returns ("", none)
  | envVar :: rest =>
    let parts := stringsSplit envVar '='
    match index parts 0 with
    | .panics msg => .panics msg
    | .returns k =>
      if k = key then
        match index parts 1 with
        | .panics msg => .panics msg
        | .returns v => .returns (v, none)
      else GoContainerRegistryImage.envLoop key rest

/-- The method `Env` of `ggcr_image.go`. -/
def GoContainerRegistryImage.Env (i : GoContainerRegistryImage) (key : String) :
    Outcome (String × Option GoError) :=
  match i.configFile with
  | .error err => .returns ("", some err)
  | .ok cfg => GoContainerRegistryImage.envLoop key cfg.Config.Env

/-- The method `Label` of `ggcr_image.go`. -/
def GoContainerRegistryImage.Label (i : GoContainerRegistryImage) (key : String) :
    String × Option GoError :=
  match i.configFile with
  | .error err => ("", some err)
  | .ok cfg => (mapIndex cfg.Config.Labels key, none)

/-- The method `Identifier` of `ggcr_image.go`. -/
def GoContainerRegistryImage.Identifier (w : World) (i : GoContainerRegistryImage) :
    String × Option GoError :=
  match w.ParseReference i.repoName with
  | .error err => ("", some err)
  | .ok ref =>
    match w.Digest i.image with
    | .error err =>
      ("", some (errorsWrap err ("failed to get digest for image '" ++ i.repoName ++ "'")))
    | .ok digest => (ref.Repository ++ "@" ++ digest, none)

/-- The method `Rebase` of `ggcr_image.go`, run against the registry state `log`. -/
def GoContainerRegistryImage.Rebase (w : World) (i : GoContainerRegistryImage)
    (topLayer : String) (newBase : RemoteImage) (log : RegistryLog) :
    Outcome (Option RemoteImage × Option GoError) × RegistryLog :=
  match newBase with
  | .other _ => (.returns (none, some "expected new base to be a remote image"), log)
  | .ggcr newBaseRemote =>
    match mutate.Rebase i.image
        (checked (subImage.Layers { img := i.image, topSHA := topLayer })) newBaseRemote.image with
    | .panics msg => (.panics msg, log)
    | .returns (.error err) => (.returns (none, some (errorsWrap err "rebase")), log)
    | .returns (.ok rebased) =>
      match mutate.CreatedAt rebased w.Now with
      | .panics msg => (.panics msg, log)
      | .returns (.error err) => (.returns (none, some err), log)
      | .returns (.ok newImage) =>
        match w.ParseReference i.repoName with
        | .error err =>
          (.returns (none, some (errorsWrap err ("parse reference '" ++ i.repoName ++ "'"))), log)
        | .ok ref =>
          match i.keychain with
          | none => (.panics "invalid memory address or nil pointer dereference", log)
          | some keychain =>
            match keychain.Resolve ref.Registry with
            | .error err =>
              (.returns (none,
                some (errorsWrap err ("resolving keychain for '" ++ ref.Registry ++ "'"))), log)
            | .ok auth =>
              match remote.Write w log ref newImage auth with
              | (some err, log1) => (.returns (none, some err), log1)
              | (none, log1) =>
                (.returns (some (.ggcr { image := newImage, repoName := i.repoName,
                                         keychain := none }), none), log1)

/-! ## `pkg/registry/image_rebaser.go` -/

/-- Modelled from the spec: the interface `ImageRef`, whose declaration is in a file that is
not under src/. The spec describes it as an immutable value of a repository/tag or
repository/digest string, an optional reference to a stored credential and an
execution-identity scope, with equality by its string fields; the fields are what the methods
`Image()`, `ServiceAccount()`, `Namespace()` and `SecretName()` answer. -/
structure ImageRef where
  Image : String
  ServiceAccount : String
  Namespace : String
  SecretName : String
  deriving DecidableEq, Repr

/-- Modelled from the spec: the constructor `NewNoAuthImageRef`, whose body is in a file that
is not under src/: the reference to `image` with no stored credential and no execution
identity (an unauthenticated reference to a publicly pullable image). -/
def NewNoAuthImageRef (image : String) : ImageRef :=
  { Image := image, ServiceAccount := "", Namespace := "", SecretName := "" }

/-- The interface `KeychainFactory`, by its method `KeychainForImageRef`. -/
structure KeychainFactory where
  KeychainForImageRef : ImageRef → authn.Keychain

/-- The struct `ImageRebaser` of `pkg/registry/image_rebaser.go`. -/
structure ImageRebaser where
  KeychainFactory : KeychainFactory

/-- The method `ImageRebaser.Rebase` of `pkg/registry/image_rebaser.go`, run against the
registry state `log`. -/
def ImageRebaser.Rebase (w : World) (f : ImageRebaser) (orig oldBase latestBase : ImageRef)
    (log : RegistryLog) : Outcome (Option RemoteImage × Option GoError) × RegistryLog :=
  match NewGoContainerRegistryImage w orig.Image (f.KeychainFactory.KeychainForImageRef orig) with
  | (_, some err) => (.returns (none, some err), log)
  | (none, none) => (.panics "invalid memory address or nil pointer dereference", log)
  | (some origImage, none) =>
    match NewGoContainerRegistryImage w oldBase.Image
        (f.KeychainFactory.KeychainForImageRef oldBase) with
    | (_, some err) => (.returns (none, some err), log)
    | (none, none) => (.panics "invalid memory address or nil pointer dereference", log)
    | (some oldBaseImage, none) =>
      match NewGoContainerRegistryImage w latestBase.Image
          (f.KeychainFactory.KeychainForImageRef latestBase) with
      | (_, some err) => (.returns (none, some err), log)
      | (none, none) => (.panics "invalid memory address or nil pointer dereference", log)
      | (some latestBaseImage, none) =>
        match mutate.Rebase origImage.image oldBaseImage.image.Layers latestBaseImage.image with
        | .panics msg => (.panics msg, log)
        | .returns (.error err) => (.returns (none, some err), log)
        | .returns (.ok rebase) =>
          match w.ParseReference origImage.repoName with
          | .error err => (.returns (none, some err), log)
          | .ok reference =>
            let rebasedImage : GoContainerRegistryImage :=
              { repoName := origImage.repoName, image := rebase, keychain := none }
            match remote.WriteFromKeychain w log reference rebase
                (f.KeychainFactory.KeychainForImageRef orig) with
            | (err, log1) => (.returns (some (.ggcr rebasedImage), err), log1)

/-! ## The `RemoteImage` interface as its callers use it -/

/-- Interface call `img.Label(key)`. -/
def RemoteImage.Label : RemoteImage → String → String × Option GoError
  | .ggcr i, key => i.Label key
  | .other o, key => o.Label key

/-- Interface call `img.Identifier()`. -/
def RemoteImage.Identifier (w : World) : RemoteImage → String × Option GoError
  | .ggcr i => i.Identifier w
  | .other o => o.Identifier

/-- Interface call `img.CreatedAt()`. -/
def RemoteImage.CreatedAt : RemoteImage → Time × Option GoError
  | .ggcr i => i.CreatedAt
  | .other o => o.CreatedAt

/-- Interface call `img.Rebase(topLayer, newBase)`, run against the registry state `log`.
What an implementation other than `*GoContainerRegistryImage` does is the parameter
`otherRebase`. -/
def RemoteImage.Rebase (w : World)
    (otherRebase : OtherRemoteImage → String → RemoteImage → RegistryLog →
      Outcome (Option RemoteImage × Option GoError) × RegistryLog) :
    RemoteImage → String → RemoteImage → RegistryLog →
      Outcome (Option RemoteImage × Option GoError) × RegistryLog
  | .ggcr i, topLayer, newBase, log => i.Rebase w topLayer newBase log
  | .other o, topLayer, newBase, log => otherRebase o topLayer newBase log

/-- The interface `RemoteImageFactory`, by its method `NewRemote`. What a call answers may
depend on the calls made before it (`calls`, oldest first), as it does for a test double
programmed per call. -/
structure RemoteImageFactory where
  NewRemote : List ImageRef → ImageRef → Except GoError RemoteImage

end registry

/-! ## `github.com/buildpack/lifecycle/metadata` and `encoding/json` -/

namespace lcyclemd

/-- Constant `metadata.BuildMetadataLabel`. -/
def BuildMetadataLabel : String := "io.buildpacks.build.metadata"

/-- Constant `metadata.LayerMetadataLabel`. -/
def LayerMetadataLabel : String := "io.buildpacks.lifecycle.metadata"

/-- Fields of `metadata.BuildpackMetadata` that the code reads. -/
structure BuildpackMetadata where
  ID : String
  Version : String
  deriving DecidableEq, Repr

/-- Fields of `metadata.BuildMetadata` that the code reads. -/
structure BuildMetadata where
  Buildpacks : List BuildpackMetadata
  deriving DecidableEq, Repr

/-- Fields of `metadata.RunImageMetadata`. -/
structure RunImageMetadata where
  TopLayer : String
  Reference : String
  deriving DecidableEq, Repr

/-- Fields of `metadata.StackRunImageMetadata` that the code reads. -/
structure StackRunImageMetadata where
  Image : String
  deriving DecidableEq, Repr

/-- Fields of `metadata.StackMetadata` that the code reads. -/
structure StackMetadata where
  RunImage : StackRunImageMetadata
  deriving DecidableEq, Repr

/-- Fields of `metadata.LayersMetadata` that the code reads. -/
structure LayersMetadata where
  RunImage : RunImageMetadata
  Stack : StackMetadata
  deriving DecidableEq, Repr

end lcyclemd

/-- Go `json.Unmarshal(data, &v)` into a value of type `α`: empty input is the syntax error
"unexpected end of JSON input"; on any other input the result is what the decoder for `α`
gives, which is taken as a parameter. -/
def jsonUnmarshal {α : Type} (decode : String → Except GoError α) (data : String) :
    Except GoError α :=
  if data = "" then .error "unexpected end of JSON input" else decode data

namespace cnb

/-! ## `pkg/cnb/cnb_metadata.go` -/

/-- Constant `BuilderMetadataLabel`. -/
def BuilderMetadataLabel : String := "io.buildpacks.builder.metadata"

/-- The struct `BuildpackMetadata`. -/
structure BuildpackMetadata where
  ID : String
  Version : String
  deriving DecidableEq, Repr

/-- The struct `BuilderImageMetadata`. -/
structure BuilderImageMetadata where
  Buildpacks : List BuildpackMetadata
  Stack : lcyclemd.StackMetadata
  deriving DecidableEq, Repr

/-- The type `BuilderMetadata`. -/
abbrev BuilderMetadata := List BuildpackMetadata

/-- The struct `BuilderImage`. -/
structure BuilderImage where
  BuilderBuildpackMetadata : BuilderMetadata
  RunImage : String
  Identifier : String
  deriving DecidableEq, Repr

/-- The struct `BuiltImage`. -/
structure BuiltImage where
  Identifier : String
  CompletedAt : Time
  BuildpackMetadata : List lcyclemd.BuildpackMetadata
  RunImage : String
  deriving DecidableEq, Repr

/-- The zero value `BuilderImage{}`. -/
def BuilderImage.zero : BuilderImage :=
  { BuilderBuildpackMetadata := [], RunImage := "", Identifier := "" }

/-- The zero value `BuiltImage{}`. -/
def BuiltImage.zero : BuiltImage :=
  { Identifier := "", CompletedAt := 0, BuildpackMetadata := [], RunImage := "" }

/-- The JSON decoders of the three label payloads, for non-empty input. -/
structure Decoders where
  BuilderImageMetadata : String → Except GoError BuilderImageMetadata
  BuildMetadata : String → Except GoError lcyclemd.BuildMetadata
  LayersMetadata : String → Except GoError lcyclemd.LayersMetadata

/-- The struct `RemoteMetadataRetriever`. -/
structure RemoteMetadataRetriever where
  RemoteImageFactory : registry.RemoteImageFactory

/-- The method `GetBuilderImage` of `cnb_metadata.go`. `calls` lists the `NewRemote` calls
made on the factory so far, oldest first; the second component of the result is that list
after the method has run. -/
def RemoteMetadataRetriever.GetBuilderImage (w : World) (js : Decoders)
    (r : RemoteMetadataRetriever) (repo : registry.ImageRef) (calls : List registry.ImageRef) :
    (BuilderImage × Option GoError) × List registry.ImageRef :=
  match r.RemoteImageFactory.NewRemote calls repo with
  | .error err =>
    ((BuilderImage.zero, some (errorsWrap err "unable to fetch remote builder image")),
      calls ++ [repo])
  | .ok img =>
    match img.Label BuilderMetadataLabel with
    | (_, some err) =>
      ((BuilderImage.zero, some (errorsWrap err "builder image metadata label not present")),
        calls ++ [repo])
    | (metadataJSON, none) =>
      match jsonUnmarshal js.BuilderImageMetadata metadataJSON with
      | .error err =>
        ((BuilderImage.zero, some (errorsWrap err "unsupported builder metadata structure")),
          calls ++ [repo])
      | .ok metadata =>
        match img.Identifier w with
        | (_, some err) =>
          ((BuilderImage.zero, some (errorsWrap err "failed to retrieve builder image SHA")),
            calls ++ [repo])
        | (identifier, none) =>
          let runRef := registry.NewNoAuthImageRef metadata.Stack.RunImage.Image
          match r.RemoteImageFactory.NewRemote (calls ++ [repo]) runRef with
          | .error err =>
            ((BuilderImage.zero, some (errorsWrap err "unable to fetch remote run image")),
              calls ++ [repo] ++ [runRef])
          | .ok runImage =>
            match runImage.Identifier w with
            | (_, some err) =>
              ((BuilderImage.zero, some (errorsWrap err "failed to retrieve run image SHA")),
                calls ++ [repo] ++ [runRef])
            | (runImageIdentifier, none) =>
              (({ BuilderBuildpackMetadata := metadata.Buildpacks
                  RunImage := runImageIdentifier
                  Identifier := identifier }, none),
                calls ++ [repo] ++ [runRef])

/-- The expression `strings.Split(baseRunImage, ":")[0] + "@" +
strings.Split(runImageReference, "@")[1]` of `GetBuiltImage`, operands evaluated left to
right. -/
def runImageOf (baseRunImage runImageReference : String) : Outcome String :=
  match index (stringsSplit baseRunImage ':') 0 with
  | .panics msg => .panics msg
  | .returns repository =>
    match index (stringsSplit runImageReference '@') 1 with
    | .panics msg => .panics msg
    | .returns digest => .returns (repository ++ "@" ++ digest)

/-- The method `GetBuiltImage` of `cnb_metadata.go`. The error of the second `Label` call is
assigned and then overwritten by the next assignment to `err` without being tested, so only
the string it hands back is used. -/
def RemoteMetadataRetriever.GetBuiltImage (w : World) (js : Decoders)
    (r : RemoteMetadataRetriever) (ref : registry.ImageRef) (calls : List registry.ImageRef) :
    Outcome (BuiltImage × Option GoError) :=
  match r.RemoteImageFactory.NewRemote calls ref with
  | .error err => .returns (BuiltImage.zero, some err)
  | .ok img =>
    match img.Label lcyclemd.BuildMetadataLabel with
    | (_, some err) => .returns (BuiltImage.zero, some err)
    | (buildMetadataJSON, none) =>
      let layerMetadataJSON := (img.Label lcyclemd.LayerMetadataLabel).1
      match jsonUnmarshal js.BuildMetadata buildMetadataJSON with
      | .error err => .returns (BuiltImage.zero, some err)
      | .ok buildMetadata =>
        match jsonUnmarshal js.LayersMetadata layerMetadataJSON with
        | .error err => .returns (BuiltImage.zero, some err)
        | .ok layerMetadata =>
          match img.CreatedAt with
          | (_, some err) => .returns (BuiltImage.zero, some err)
          | (imageCreatedAt, none) =>
            match img.Identifier w with
            | (_, some err) => .returns (BuiltImage.zero, some err)
            | (identifier, none) =>
              match runImageOf layerMetadata.Stack.RunImage.Image
                  layerMetadata.RunImage.Reference with
              | .panics msg => .panics msg
              | .returns runImage =>
                .returns ({ Identifier := identifier
                            CompletedAt := imageCreatedAt
                            BuildpackMetadata := buildMetadata.Buildpacks
                            RunImage := runImage }, none)

/-! ## `pkg/cnb/image_rebaser.go` -/

/-- The struct `runImageRef` of `image_rebaser.go`. -/
structure runImageRef where
  «namespace» : String
  image : String
  secretName : String
  deriving DecidableEq, Repr

/-- The method `ServiceAccount` of `runImageRef`. -/
def runImageRef.ServiceAccount (_ : runImageRef) : String := ""

/-- The method `Namespace` of `runImageRef`. -/
def runImageRef.Namespace (r : runImageRef) : String := r.«namespace»

/-- The method `Image` of `runImageRef`. -/
def runImageRef.Image (r : runImageRef) : String := r.image

/-- The method `HasSecret` of `runImageRef`. -/
def runImageRef.HasSecret (r : runImageRef) : Bool := r.secretName != ""

/-- The method `SecretName` of `runImageRef`. -/
def runImageRef.SecretName (r : runImageRef) : String := r.secretName

/-- A `runImageRef` passed as a `registry.ImageRef`: the interface value is what the methods
of the struct answer. -/
def runImageRef.toImageRef (r : runImageRef) : registry.ImageRef :=
  { Image := r.Image
    ServiceAccount := r.ServiceAccount
    Namespace := r.Namespace
    SecretName := r.SecretName }

/-- The struct `ImageRebaser` of `pkg/cnb/image_rebaser.go`. -/
structure ImageRebaser where
  RemoteImageFactory : registry.RemoteImageFactory

/-- The method `ImageRebaser.Rebase` of `pkg/cnb/image_rebaser.go`. `calls` lists the
`NewRemote` calls made on the factory so far and `log` is the registry state; the result
carries both as they are after the call. The function `readBuiltImage`, which the last line
calls on the rebased image, is declared in a file that is not under src/ and is taken as a
parameter, as is `otherRebase`, the `Rebase` method of any `RemoteImage` that is not a
`*GoContainerRegistryImage`. -/
def ImageRebaser.Rebase (w : World) (js : Decoders)
    (otherRebase : registry.OtherRemoteImage → String → registry.RemoteImage → RegistryLog →
      Outcome (Option registry.RemoteImage × Option GoError) × RegistryLog)
    (readBuiltImage : Option registry.RemoteImage → Outcome (BuiltImage × Option GoError))
    (f : ImageRebaser) (builderRef previousImageRef : registry.ImageRef)
    (calls : List registry.ImageRef) (log : RegistryLog) :
    Outcome (BuiltImage × Option GoError) × List registry.ImageRef × RegistryLog :=
  match f.RemoteImageFactory.NewRemote calls builderRef with
  | .error err => (.returns (BuiltImage.zero, some err), calls ++ [builderRef], log)
  | .ok builderImage =>
    match f.RemoteImageFactory.NewRemote (calls ++ [builderRef]) previousImageRef with
    | .error err =>
      (.returns (BuiltImage.zero, some err), calls ++ [builderRef, previousImageRef], log)
    | .ok previousImage =>
      match builderImage.Label BuilderMetadataLabel with
      | (_, some err) =>
        (.returns (BuiltImage.zero,
            some (errorsWrap err "builder image metadata label not present")),
          calls ++ [builderRef, previousImageRef], log)
      | (metadataJSON, none) =>
        match jsonUnmarshal js.BuilderImageMetadata metadataJSON with
        | .error err =>
          (.returns (BuiltImage.zero,
              some (errorsWrap err "unsupported builder metadata structure")),
            calls ++ [builderRef, previousImageRef], log)
        | .ok metadata =>
          let runRef : registry.ImageRef :=
            runImageRef.toImageRef
              { «namespace» := builderRef.Namespace
                image := metadata.Stack.RunImage.Image
                secretName := builderRef.SecretName }
          match f.RemoteImageFactory.NewRemote (calls ++ [builderRef, previousImageRef])
              runRef with
          | .error err =>
            (.returns (BuiltImage.zero, some (errorsWrap err "unable to fetch remote run image")),
              calls ++ [builderRef, previousImageRef, runRef], log)
          | .ok runImage =>
            match previousImage.Rebase w otherRebase "" runImage log with
            | (.panics msg, log1) =>
              (.panics msg, calls ++ [builderRef, previousImageRef, runRef], log1)
            | (.returns (_, some err), log1) =>
              (.returns (BuiltImage.zero, some err),
                calls ++ [builderRef, previousImageRef, runRef], log1)
            | (.returns (rebasedImage, none), log1) =>
              (readBuiltImage rebasedImage,
                calls ++ [builderRef, previousImageRef, runRef], log1)

end cnb

/-! ## Text operations the specification speaks of -/

/-- Text of `s` before its first `c`; all of `s` when it holds no `c`. -/
def textBeforeFirst (c : Char) (s : String) : String :=
  String.mk (s.data.takeWhile (fun x => x != c))

/-- Text of `s` after its first `c`, to the end of `s`; empty when `s` holds no `c`. -/
def textAfterFirst (c : Char) (s : String) : String :=
  String.mk ((s.data.dropWhile (fun x => x != c)).drop 1)

/-- The run-image reference as the specification derives it from the stack run-image string
`S` and the lifecycle run-image reference `R`: the text of `S` before its first `:`,
then `@`, then the text of `R` after its first `@`. -/
def specRunImage (S R : String) : String :=
  textBeforeFirst ':' S ++ "@" ++ textAfterFirst '@' R

/-- The value of an environment entry `KEY=VALUE` as the specification reads it: all text
after the first `=`. -/
def specEnvValue (envVar : String) : String :=
  textAfterFirst '=' envVar

/-! ## Inputs for the worked examples -/

/-- A world in which every reference parses to the repository it names on `index.docker.io`,
keychains aside, and the registry accepts every push. -/
def exampleWorld : World :=
  { Now := 1565000000
    ParseReference := fun s => .ok ⟨"index.docker.io", s, "latest"⟩
    Image := fun _ _ => .error "no such image"
    Digest := fun _ => .error "no digest"
    WriteError := fun _ _ => none }

/-- An implementation of `RemoteImage` that holds its identifier, creation time and label
map directly, as a test double does. -/
def exampleRemoteImage (identifier : String) (created : Time) (labels : List (String × String)) :
    registry.RemoteImage :=
  .other
    { CreatedAt := (created, none)
      Env := fun _ => ("", none)
      Label := fun key => (mapIndex labels key, none)
      Identifier := (identifier, none) }

/-- Decoders that know the label payloads of the examples and refuse any other text. -/
def exampleDecoders (builder : String × cnb.BuilderImageMetadata)
    (build : String × lcyclemd.BuildMetadata) (layers : String × lcyclemd.LayersMetadata) :
    cnb.Decoders :=
  { BuilderImageMetadata := fun s =>
      if s = builder.1 then .ok builder.2 else .error "json: cannot unmarshal"
    BuildMetadata := fun s =>
      if s = build.1 then .ok build.2 else .error "json: cannot unmarshal"
    LayersMetadata := fun s =>
      if s = layers.1 then .ok layers.2 else .error "json: cannot unmarshal" }

/-- The build-metadata label of the repository's `GetBuiltImage` test. -/
def exampleBuildJSON : String :=
  "\x7b\"buildpacks\": [\x7b\"id\": \"test.id\", \"version\": \"1.2.3\"\x7d]\x7d"

/-- What `exampleBuildJSON` parses to. -/
def exampleBuildMetadata : lcyclemd.BuildMetadata :=
  { Buildpacks := [{ ID := "test.id", Version := "1.2.3" }] }

/-- The lifecycle-metadata label of the repository's `GetBuiltImage` test. -/
def exampleLifecycleJSON : String :=
  "\x7b\"runImage\":\x7b\"topLayer\":\"sha256:719f3f610dade1fdf5b4b2473aea0c6b1317497cf20691ab6d184a9b2fa5c409\",\"reference\":\"localhost:5000/node@sha256:0fd6395e4fe38a0c089665cbe10f52fb26fc64b4b15e672ada412bd7ab5499a0\"\x7d,\"stack\":\x7b\"runImage\":\x7b\"image\":\"cloudfoundry/run:full-cnb\"\x7d\x7d\x7d"

/-- What `exampleLifecycleJSON` parses to. -/
def exampleLayersMetadata : lcyclemd.LayersMetadata :=
  { RunImage :=
      { TopLayer := "sha256:719f3f610dade1fdf5b4b2473aea0c6b1317497cf20691ab6d184a9b2fa5c409"
        Reference :=
          "localhost:5000/node@sha256:0fd6395e4fe38a0c089665cbe10f52fb26fc64b4b15e672ada412bd7ab5499a0" }
    Stack := { RunImage := { Image := "cloudfoundry/run:full-cnb" } } }

/-- The builder-metadata label of the repository's `GetBuilderImage` test. -/
def exampleBuilderJSON : String :=
  "\x7b\"buildpacks\": [\x7b\"id\": \"test.id\", \"version\": \"1.2.3\"\x7d], \"stack\": \x7b \"runImage\": \x7b \"image\": \"foo.io/run:basecnb\" \x7d\x7d\x7d"

/-- What `exampleBuilderJSON` parses to. -/
def exampleBuilderMetadata : cnb.BuilderImageMetadata :=
  { Buildpacks := [{ ID := "test.id", Version := "1.2.3" }]
    Stack := { RunImage := { Image := "foo.io/run:basecnb" } } }

/-- The decoders for the three example payloads. -/
def exampleJS : cnb.Decoders :=
  exampleDecoders (exampleBuilderJSON, exampleBuilderMetadata)
    (exampleBuildJSON, exampleBuildMetadata) (exampleLifecycleJSON, exampleLayersMetadata)

/-- A retriever whose factory answers every request with `img`. -/
def exampleRetriever (img : registry.RemoteImage) : cnb.RemoteMetadataRetriever :=
  { RemoteImageFactory := { NewRemote := fun _ _ => .ok img } }

/-- The built image of the repository's `GetBuiltImage` test. -/
def exampleBuiltImage : registry.RemoteImage :=
  exampleRemoteImage
    "index.docker.io/built/image@sha256:dc7e5e790001c71c2cfb175854dd36e65e0b71c58294b331a519be95bdec4ef4"
    1565000000
    [("io.buildpacks.build.metadata", exampleBuildJSON),
     ("io.buildpacks.lifecycle.metadata", exampleLifecycleJSON)]

/-- A lifecycle-metadata label whose run-image reference holds two `@`. -/
def exampleTwoAtJSON : String :=
  "\x7b\"runImage\":\x7b\"reference\":\"localhost:5000/node@sha256:0fd6@sha256:1e55\"\x7d,\"stack\":\x7b\"runImage\":\x7b\"image\":\"cloudfoundry/run:full-cnb\"\x7d\x7d\x7d"

/-- What `exampleTwoAtJSON` parses to. -/
def exampleTwoAtMetadata : lcyclemd.LayersMetadata :=
  { RunImage := { TopLayer := "", Reference := "localhost:5000/node@sha256:0fd6@sha256:1e55" }
    Stack := { RunImage := { Image := "cloudfoundry/run:full-cnb" } } }

/-- A lifecycle-metadata label whose run-image reference is a tag reference, without `@`. -/
def exampleNoDigestJSON : String :=
  "\x7b\"runImage\":\x7b\"reference\":\"localhost:5000/node:latest\"\x7d,\"stack\":\x7b\"runImage\":\x7b\"image\":\"cloudfoundry/run:full-cnb\"\x7d\x7d\x7d"

/-- What `exampleNoDigestJSON` parses to. -/
def exampleNoDigestMetadata : lcyclemd.LayersMetadata :=
  { RunImage := { TopLayer := "", Reference := "localhost:5000/node:latest" }
    Stack := { RunImage := { Image := "cloudfoundry/run:full-cnb" } } }

/-- A built image with the build-metadata label of the test and the lifecycle-metadata
label `lifecycle`. -/
def exampleBuiltImageWith (lifecycle : String) : registry.RemoteImage :=
  exampleRemoteImage "index.docker.io/built/image@sha256:dc7e" 1565000000
    [("io.buildpacks.build.metadata", exampleBuildJSON),
     ("io.buildpacks.lifecycle.metadata", lifecycle)]

/-- A registry-backed built image that has the build-metadata label and no
lifecycle-metadata label. -/
def exampleUnlabelledImage : registry.RemoteImage :=
  .ggcr
    { image :=
        { Layers := .ok []
          ConfigFile := .ok (some
            { Created := 1565000000
              Config := { Env := [], Labels := [("io.buildpacks.build.metadata", exampleBuildJSON)] }
              History := [] }) }
      repoName := "built/image:tag"
      keychain := none }

/-- The factory of the repository's `GetBuilderImage` test: the first call answers the
builder image, every later call the run image. -/
def exampleBuilderFactory : registry.RemoteImageFactory :=
  { NewRemote := fun calls _ =>
      match calls with
      | [] =>
        .ok (exampleRemoteImage
          "index.docker.io/builder/image@sha256:2bc85afc0ee0aec012b3889cf5f2e9690bb504c9d19ce90add2f415b85990895"
          1565000000 [("io.buildpacks.builder.metadata", exampleBuilderJSON)])
      | _ :: _ =>
        .ok (exampleRemoteImage
          "foo.io/run@sha256:c9d19ce90add2f415b859908952bc85afc0ee0aec012b3889cf5f2e9690bb504"
          1565000000 []) }

/-- The image `app/image` of the rebase examples: base layers `B1, B2`, application layers
`A1, A2`. -/
def exampleOriginal : v1.Image :=
  { Layers := .ok [⟨.ok "sha256:b1", .ok "diff:B1"⟩, ⟨.ok "sha256:b2", .ok "diff:B2"⟩,
                   ⟨.ok "sha256:a1", .ok "diff:A1"⟩, ⟨.ok "sha256:a2", .ok "diff:A2"⟩]
    ConfigFile := .ok (some
      { Created := 0
        Config := { Env := ["PATH=/bin"], Labels := [] }
        History := ["ADD b1", "ADD b2", "ADD a1", "ADD a2"] }) }

/-- The image `run/old` of the rebase examples: the layers `B1, B2`. -/
def exampleOldBase : v1.Image :=
  { Layers := .ok [⟨.ok "sha256:b1", .ok "diff:B1"⟩, ⟨.ok "sha256:b2", .ok "diff:B2"⟩]
    ConfigFile := .ok (some
      { Created := 0, Config := { Env := [], Labels := [] }, History := ["ADD b1", "ADD b2"] }) }

/-- The image `run/new` of the rebase examples: the layers `C1, C2, C3`. -/
def exampleNewBase : v1.Image :=
  { Layers := .ok [⟨.ok "sha256:c1", .ok "diff:C1"⟩, ⟨.ok "sha256:c2", .ok "diff:C2"⟩,
                   ⟨.ok "sha256:c3", .ok "diff:C3"⟩]
    ConfigFile := .ok (some
      { Created := 0
        Config := { Env := [], Labels := [] }
        History := ["ADD c1", "ADD c2", "ADD c3"] }) }

/-- The image `app/twice`: its two base layers `E, E` have the same diff ID (the same
uncompressed content, as two empty layers have), followed by the application layer `A1`. -/
def exampleRepeated : v1.Image :=
  { Layers := .ok [⟨.ok "sha256:e", .ok "diff:E"⟩, ⟨.ok "sha256:e", .ok "diff:E"⟩,
                   ⟨.ok "sha256:a1", .ok "diff:A1"⟩]
    ConfigFile := .ok (some
      { Created := 0
        Config := { Env := [], Labels := [] }
        History := ["ADD e", "ADD e", "ADD a1"] }) }

/-- The image `run/twice`: the layers `E, E`. -/
def exampleRepeatedBase : v1.Image :=
  { Layers := .ok [⟨.ok "sha256:e", .ok "diff:E"⟩, ⟨.ok "sha256:e", .ok "diff:E"⟩]
    ConfigFile := .ok (some
      { Created := 0, Config := { Env := [], Labels := [] }, History := ["ADD e", "ADD e"] }) }

/-- A world whose registry serves the five example images and accepts every push, at the
time 1565000000. -/
def exampleRegistryWorld : World :=
  { Now := 1565000000
    ParseReference := fun s => .ok ⟨"index.docker.io", s, "latest"⟩
    Image := fun ref _ =>
      if ref.Repository = "app/image" then .ok exampleOriginal
      else if ref.Repository = "run/old" then .ok exampleOldBase
      else if ref.Repository = "run/new" then .ok exampleNewBase
      else if ref.Repository = "app/twice" then .ok exampleRepeated
      else if ref.Repository = "run/twice" then .ok exampleRepeatedBase
      else .error "MANIFEST_UNKNOWN"
    Digest := fun _ => .error "no digest"
    WriteError := fun _ _ => none }

/-- The keychain that answers every registry with the anonymous credential. -/
def exampleKeychain : authn.Keychain :=
  { Resolve := fun _ => .ok "anonymous" }

/-- The rebaser whose keychain factory hands out `exampleKeychain` for every reference. -/
def exampleRebaser : registry.ImageRebaser :=
  { KeychainFactory := { KeychainForImageRef := fun _ => exampleKeychain } }

/-- The accessor `NewGoContainerRegistryImage` builds in `exampleRegistryWorld` for a
repository that serves `image`. -/
def exampleAccessor (repoName : String) (image : v1.Image) : registry.GoContainerRegistryImage :=
  { image := image, repoName := repoName, keychain := some exampleKeychain }

/-- A registry-backed image whose config holds the environment list `env`. -/
def exampleImageWithEnv (env : List String) : registry.GoContainerRegistryImage :=
  { image :=
      { Layers := .ok []
        ConfigFile := .ok (some
          { Created := 1565000000, Config := { Env := env, Labels := [] }, History := [] }) }
    repoName := "built/image:tag"
    keychain := none }

/-- A registry-backed builder image carrying the builder-metadata label of the examples. -/
def exampleBuilderAccessor : registry.GoContainerRegistryImage :=
  { image :=
      { Layers := .ok [⟨.ok "sha256:c1", .ok "diff:C1"⟩]
        ConfigFile := .ok (some
          { Created := 1565000000
            Config := { Env := [], Labels := [("io.buildpacks.builder.metadata", exampleBuilderJSON)] }
            History := ["ADD c1"] }) }
    repoName := "builder/image"
    keychain := some exampleKeychain }

/-- A factory of registry-backed images: the first request answers the builder image, the
second the built image `app/image` (layers `B1, B2, A1, A2`), every later one the run image
`run/new`. -/
def exampleRebaseFactory : registry.RemoteImageFactory :=
  { NewRemote := fun calls _ =>
      match calls with
      | [] => .ok (.ggcr exampleBuilderAccessor)
      | [_] => .ok (.ggcr (exampleAccessor "app/image" exampleOriginal))
      | _ :: _ :: _ => .ok (.ggcr (exampleAccessor "run/new" exampleNewBase)) }

/-- A `readBuiltImage` that succeeds on whatever image it is given. -/
def exampleReadBuiltImage (_ : Option registry.RemoteImage) : Outcome (cnb.BuiltImage × Option GoError) :=
  .returns
    ({ Identifier := "index.docker.io/app/image@sha256:0000"
       CompletedAt := 1565000000
       BuildpackMetadata := []
       RunImage := "run/new@sha256:0000" }, none)

/-- A `Rebase` for other implementations of `RemoteImage` that succeeds with the receiver. -/
def exampleOtherRebase (o : registry.OtherRemoteImage) (_ : String) (_ : registry.RemoteImage)
    (log : RegistryLog) : Outcome (Option registry.RemoteImage × Option GoError) × RegistryLog :=
  (.returns (some (.other o), none), log)

/-! ## The sub-image view: `subImage.Layers` -/

namespace registry

theorem subImage.scan_match (topSHA : String) (pre : List v1.Layer) (l : v1.Layer)
    (post seen : List v1.Layer) (hl : l.DiffID = .ok topSHA)
    (hpre : ∀ x ∈ pre, ∃ d, x.DiffID = .ok d ∧ d ≠ topSHA) :
    subImage.scan topSHA seen (pre ++ l :: post) = (seen ++ pre ++ [l], none) := by
  induction pre generalizing seen with
  | nil => simp [subImage.scan, hl]
  | cons x xs ih =>
    obtain ⟨d, hd, hne⟩ := hpre x (by simp)
    have hxs : ∀ y ∈ xs, ∃ d, y.DiffID = .ok d ∧ d ≠ topSHA :=
      fun y hy => hpre y (by simp [hy])
    simp [subImage.scan, hd, hne, ih (seen ++ [x]) hxs]

theorem subImage.scan_no_match (topSHA : String) (rest seen : List v1.Layer)
    (h : ∀ x ∈ rest, ∃ d, x.DiffID = .ok d ∧ d ≠ topSHA) :
    subImage.scan topSHA seen rest = ([], some "could not find base layer in image") := by
  induction rest generalizing seen with
  | nil => simp [subImage.scan]
  | cons x xs ih =>
    obtain ⟨d, hd, hne⟩ := h x (by simp)
    have hxs : ∀ y ∈ xs, ∃ d, y.DiffID = .ok d ∧ d ≠ topSHA :=
      fun y hy => h y (by simp [hy])
    simp [subImage.scan, hd, hne, ih (seen ++ [x]) hxs]

theorem subImage.scan_error_nil (topSHA : String) (rest seen : List v1.Layer) (e : GoError)
    (h : (subImage.scan topSHA seen rest).2 = some e) :
    (subImage.scan topSHA seen rest).1 = [] := by
  induction rest generalizing seen with
  | nil => simp [subImage.scan]
  | cons x xs ih =>
    unfold subImage.scan at h ⊢
    cases hx : x.DiffID with
    | error err => simp
    | ok d =>
      simp only [hx] at h ⊢
      by_cases hd : d = topSHA
      · simp [hd] at h
      · simp only [hd, if_false] at h ⊢
        exact ih _ h

/-- When every `DiffID` call succeeds and some layer has the target diff ID, the scan ends
without error. -/
theorem subImage.scan_found (topSHA : String) (rest seen : List v1.Layer)
    (hd : ∀ x ∈ rest, ∃ d, x.DiffID = .ok d)
    (hex : ∃ x ∈ rest, x.DiffID = .ok topSHA) :
    (subImage.scan topSHA seen rest).2 = none := by
  induction rest generalizing seen with
  | nil => simp at hex
  | cons x xs ih =>
    obtain ⟨d, hxd⟩ := hd x (by simp)
    unfold subImage.scan
    simp only [hxd]
    by_cases hdt : d = topSHA
    · simp [hdt]
    · simp only [hdt, if_false]
      apply ih
      · exact fun y hy => hd y (by simp [hy])
      · obtain ⟨y, hy, hyd⟩ := hex
        rcases List.mem_cons.mp hy with rfl | hy
        · rw [hxd] at hyd
          exact absurd (Except.ok.inj hyd) hdt
        · exact ⟨y, hy, hyd⟩

/-- **C1.** When the layer listing of the source image succeeds with `all`, the layer at
index `i` has diff ID `topSHA`, and every layer before it has a diff ID other than `topSHA`
(so `i` is the least index whose diff ID is the target), `subImage.Layers` returns, without
error, exactly `all[0..i]`: the first `i + 1` layers in their original order. -/
theorem subImage_Layers_returns_layers_through_first_match (si : subImage)
    (all : List v1.Layer) (i : Nat) (hall : si.img.Layers = .ok all)
    (hmatch : ∃ l, all[i]? = some l ∧ l.DiffID = .ok si.topSHA)
    (hfirst : ∀ j l, j < i → all[j]? = some l → ∃ d, l.DiffID = .ok d ∧ d ≠ si.topSHA) :
    subImage.Layers si = (all.take (i + 1), none) := by
  obtain ⟨l, hl, hld⟩ := hmatch
  have hi : i < all.length := by
    rcases List.getElem?_eq_some.mp hl with ⟨h, -⟩
    exact h
  have hget : all[i] = l := by
    rcases List.getElem?_eq_some.mp hl with ⟨_, h⟩
    exact h
  have hsplit : all = all.take i ++ l :: all.drop (i + 1) := by
    rw [← hget]
    simp
  have hpre : ∀ x ∈ all.take i, ∃ d, x.DiffID = .ok d ∧ d ≠ si.topSHA := by
    intro x hx
    obtain ⟨j, hj, hxj⟩ := List.getElem_of_mem hx
    have hji : j < i := by
      have := List.length_take_le i all
      omega
    refine hfirst j x hji ?_
    rw [← hxj, List.getElem_take]
    exact List.getElem?_eq_getElem _
  have htake : all.take (i + 1) = all.take i ++ [l] := by
    rw [List.take_succ, hl]
    rfl
  unfold subImage.Layers
  rw [hall]
  show subImage.scan si.topSHA [] all = _
  rw [htake]
  conv_lhs => rw [hsplit]
  rw [subImage.scan_match si.topSHA _ l _ [] hld hpre]
  simp

/-- Witness for C1: of the layers with diff IDs `a, b, b, c` and target `b`, the first two
are returned. -/
theorem subImage_Layers_returns_layers_through_first_match_witness :
    subImage.Layers
        { img := { Layers := .ok [⟨.ok "s1", .ok "a"⟩, ⟨.ok "s2", .ok "b"⟩,
                                  ⟨.ok "s3", .ok "b"⟩, ⟨.ok "s4", .ok "c"⟩],
                   ConfigFile := .ok none },
          topSHA := "b" }
      = ([⟨.ok "s1", .ok "a"⟩, ⟨.ok "s2", .ok "b"⟩], none) :=
  subImage_Layers_returns_layers_through_first_match _
    [⟨.ok "s1", .ok "a"⟩, ⟨.ok "s2", .ok "b"⟩, ⟨.ok "s3", .ok "b"⟩, ⟨.ok "s4", .ok "c"⟩] 1 rfl
    ⟨⟨.ok "s2", .ok "b"⟩, rfl, rfl⟩
    (by
      intro j l hj hl
      have hj0 : j = 0 := by omega
      subst hj0
      simp at hl
      subst hl
      exact ⟨"a", rfl, by decide⟩)

/-- **C2.** When the layer listing of the source image succeeds with `all` and the `DiffID`
call of every layer succeeds, `subImage.Layers` returns the error "could not find base layer
in image" if and only if no layer of `all` has a diff ID equal to `topSHA`; and when it
returns that error the layer list it returns is nil. -/
theorem subImage_Layers_not_found_iff_no_match (si : subImage) (all : List v1.Layer)
    (hall : si.img.Layers = .ok all) (hd : ∀ l ∈ all, ∃ d, l.DiffID = .ok d) :
    ((subImage.Layers si).2 = some "could not find base layer in image"
        ↔ ∀ l ∈ all, l.DiffID ≠ .ok si.topSHA)
      ∧ ((subImage.Layers si).2 = some "could not find base layer in image"
          → (subImage.Layers si).1 = []) := by
  have hL : subImage.Layers si = subImage.scan si.topSHA [] all := by
    unfold subImage.Layers
    rw [hall]
  rw [hL]
  refine ⟨⟨?_, ?_⟩, fun h => subImage.scan_error_nil _ _ _ _ h⟩
  · intro h l hl hld
    have := subImage.scan_found si.topSHA all [] hd ⟨l, hl, hld⟩
    rw [this] at h
    exact absurd h (by simp)
  · intro h
    rw [subImage.scan_no_match si.topSHA all []]
    intro x hx
    obtain ⟨d, hxd⟩ := hd x hx
    refine ⟨d, hxd, ?_⟩
    rintro rfl
    exact h x hx hxd

/-- Witness for C2: no layer of the image has diff ID `z`, and the error is returned with
no layers. -/
theorem subImage_Layers_not_found_iff_no_match_witness :
    subImage.Layers
        { img := { Layers := .ok [⟨.ok "s1", .ok "a"⟩, ⟨.ok "s2", .ok "b"⟩],
                   ConfigFile := .ok none },
          topSHA := "z" }
      = ([], some "could not find base layer in image") := by
  have h := subImage_Layers_not_found_iff_no_match
    { img := { Layers := .ok [⟨.ok "s1", .ok "a"⟩, ⟨.ok "s2", .ok "b"⟩],
               ConfigFile := .ok none },
      topSHA := "z" }
    [⟨.ok "s1", .ok "a"⟩, ⟨.ok "s2", .ok "b"⟩] rfl
    (by
      intro l hl
      simp at hl
      rcases hl with rfl | rfl
      · exact ⟨"a", rfl⟩
      · exact ⟨"b", rfl⟩)
  have hno : ∀ l ∈ [(⟨.ok "s1", .ok "a"⟩ : v1.Layer), ⟨.ok "s2", .ok "b"⟩],
      l.DiffID ≠ .ok "z" := by
    intro l hl
    simp at hl
    rcases hl with rfl | rfl <;> decide
  exact Prod.ext (h.2 (h.1.mpr hno)) (h.1.mpr hno)

end registry

/-! ## Rebase with an explicit boundary: `GoContainerRegistryImage.Rebase` -/

namespace mutate

theorem index_append_length {α : Type} (done : List α) (x : α) (rest : List α) :
    index (done ++ x :: rest) done.length = .returns x := by
  have h : (done ++ x :: rest).get? done.length = some x := by
    rw [List.get?_eq_getElem?, List.getElem?_append_right (Nat.le_refl _)]
    simp
  simp only [index, h]

theorem digestLoop_bottom_layers (done todo rest : List v1.Layer)
    (h : ∀ l ∈ todo, ∃ d, l.Digest = .ok d) :
    digestLoop (done ++ todo ++ rest) done.length todo = .returns none := by
  induction todo generalizing done with
  | nil => simp [digestLoop]
  | cons x xs ih =>
    obtain ⟨d, hd⟩ := h x (by simp)
    have hxs : ∀ l ∈ xs, ∃ d, l.Digest = .ok d := fun l hl => h l (by simp [hl])
    have hidx : index (done ++ x :: xs ++ rest) done.length = .returns x := by
      have := index_append_length done x (xs ++ rest)
      simpa using this
    have hnext := ih (done ++ [x]) hxs
    simp only [List.append_assoc, List.singleton_append, List.length_append,
      List.length_singleton] at hnext
    unfold digestLoop
    simp only [hd, hidx, if_true]
    simpa using hnext

theorem addendums_of_history (h : List v1.History) (k : Nat) (ls : List v1.Layer)
    (hlen : k + ls.length ≤ h.length) :
    ∃ adds, addendums (some h) k ls = .returns adds
      ∧ adds.map (fun a => a.Layer) = ls
      ∧ adds.map (fun a => a.History) = (h.drop k).take ls.length := by
  induction ls generalizing k with
  | nil => exact ⟨[], rfl, rfl, by simp⟩
  | cons l rest ih =>
    have hk : k < h.length := by simp at hlen; omega
    obtain ⟨adds, hadds, hl, hh⟩ := ih (k + 1) (by simp at hlen ⊢; omega)
    have hidx : index h k = .returns h[k] := by
      simp [index, List.getElem?_eq_getElem hk]
    refine ⟨{ Layer := l, History := h[k] } :: adds, ?_, ?_, ?_⟩
    · unfold addendums
      simp only [hidx, hadds]
    · simp [hl]
    · simp only [List.map_cons, List.length_cons]
      rw [hh, List.drop_eq_getElem_cons hk, List.take_succ_cons]

theorem computeError_none (ls : List v1.Layer)
    (h : ∀ l ∈ ls, (∃ d, l.DiffID = .ok d) ∧ ∃ g, l.Digest = .ok g) :
    computeError ls = none := by
  induction ls with
  | nil => rfl
  | cons l rest ih =>
    obtain ⟨⟨d, hd⟩, ⟨g, hg⟩⟩ := h l (by simp)
    unfold computeError
    simp only [hd, hg]
    exact ih (fun x hx => h x (by simp [hx]))

theorem layersByDiffID_self (ls : List v1.Layer)
    (h : ∀ l ∈ ls, ∀ x ∈ ls, x.DiffID = l.DiffID → x = l) :
    layersByDiffID ls = ls := by
  unfold layersByDiffID
  conv_rhs => rw [← List.map_id ls]
  apply List.map_congr_left
  intro l hl
  cases hf : ls.reverse.find? (fun x => decide (x.DiffID = l.DiffID)) with
  | none => rfl
  | some x =>
    have hx : x ∈ ls := List.mem_reverse.mp (List.mem_of_find?_eq_some hf)
    have hp : x.DiffID = l.DiffID := by
      have := List.find?_some hf
      simpa using this
    simp [h l hl x hx hp]

/-- The appended-to image answers its layer list and config when its layers can be read and
layers with the same diff ID are the same layer. -/
theorem appended_of_readable (config : v1.Config) (adds : List Addendum)
    (hread : ∀ l ∈ adds.map (fun a => a.Layer),
      (∃ d, l.DiffID = .ok d) ∧ ∃ g, l.Digest = .ok g)
    (hsame : ∀ l ∈ adds.map (fun a => a.Layer), ∀ x ∈ adds.map (fun a => a.Layer),
      x.DiffID = l.DiffID → x = l) :
    appended config adds
      = { Layers := .ok (adds.map (fun a => a.Layer))
          ConfigFile := .ok (some
            { Created := 0, Config := config, History := adds.map (fun a => a.History) }) } := by
  unfold appended
  rw [computeError_none _ hread, layersByDiffID_self _ hsame]

/-- What `mutate.Rebase` returns on an original whose bottom layers are the old base, when
every read succeeds and both configs record a history entry for each layer. -/
theorem Rebase_of_bottom_layers (orig newBase : v1.Image) (base app newLayers : List v1.Layer)
    (cfg newCfg : v1.ConfigFile)
    (hlayers : orig.Layers = .ok (base ++ app))
    (hdig : ∀ l ∈ base, ∃ d, l.Digest = .ok d)
    (hcfg : orig.ConfigFile = .ok (some cfg))
    (hhist : (base ++ app).length ≤ cfg.History.length)
    (hnew : newBase.Layers = .ok newLayers)
    (hnewcfg : newBase.ConfigFile = .ok (some newCfg))
    (hnewhist : newLayers.length ≤ newCfg.History.length)
    (hread : ∀ l ∈ newLayers ++ app, (∃ d, l.DiffID = .ok d) ∧ ∃ g, l.Digest = .ok g)
    (hsame : ∀ l ∈ newLayers ++ app, ∀ x ∈ newLayers ++ app, x.DiffID = l.DiffID → x = l) :
    Rebase orig (.ok base) newBase
      = .returns (.ok
          { Layers := .ok (newLayers ++ app)
            ConfigFile := .ok (some
              { Created := 0
                Config := cfg.Config
                History := newCfg.History.take newLayers.length
                  ++ (cfg.History.drop base.length).take app.length }) }) := by
  have hlen : ¬ (base.length > (base ++ app).length) := by simp
  have hdl : digestLoop (base ++ app) 0 base = .returns none := by
    have := digestLoop_bottom_layers [] base app hdig
    simpa using this
  have hdrop : List.drop base.length (base ++ app) = app := List.drop_left _ _
  obtain ⟨a1, ha1, hl1, hh1⟩ := addendums_of_history newCfg.History 0 newLayers (by simpa)
  obtain ⟨a2, ha2, hl2, hh2⟩ := addendums_of_history cfg.History base.length app
    (by simpa using hhist)
  have hmapL : (a1 ++ a2).map (fun a => a.Layer) = newLayers ++ app := by
    rw [List.map_append, hl1, hl2]
  have hmapH : (a1 ++ a2).map (fun a => a.History)
      = newCfg.History.take newLayers.length ++ (cfg.History.drop base.length).take app.length := by
    rw [List.map_append, hh1, hh2]
    simp
  have happ := appended_of_readable cfg.Config (a1 ++ a2) (by rw [hmapL]; exact hread)
    (by rw [hmapL]; exact hsame)
  rw [hmapL, hmapH] at happ
  unfold Rebase
  simp only [hlayers, if_neg hlen, hdl, hcfg, hnew, hnewcfg, Option.map, ha1, hdrop, ha2, happ]

end mutate

namespace registry

theorem subImage.scan_absent (topSHA : String) (rest seen : List v1.Layer)
    (h : ∀ x ∈ rest, x.DiffID ≠ .ok topSHA) :
    ∃ e, subImage.scan topSHA seen rest = ([], some e) := by
  induction rest generalizing seen with
  | nil => exact ⟨_, rfl⟩
  | cons x xs ih =>
    unfold subImage.scan
    cases hx : x.DiffID with
    | error err => exact ⟨err, rfl⟩
    | ok d =>
      have hne : d ≠ topSHA := by
        rintro rfl
        exact h x (by simp) hx
      simp only [hne, if_false]
      exact ih _ (fun y hy => h y (by simp [hy]))

/-- The sub-image of an image whose layers are `pre ++ top :: app`, cut at the diff ID of
`top`, which no layer of `pre` has, lists `pre ++ [top]`. -/
theorem subImage.Layers_of_boundary (img : v1.Image) (pre : List v1.Layer) (top : v1.Layer)
    (app : List v1.Layer) (boundary : String)
    (hlayers : img.Layers = .ok (pre ++ top :: app)) (htop : top.DiffID = .ok boundary)
    (hpre : ∀ l ∈ pre, ∃ d, l.DiffID = .ok d ∧ d ≠ boundary) :
    subImage.Layers { img := img, topSHA := boundary } = (pre ++ [top], none) := by
  unfold subImage.Layers
  simp only [hlayers]
  rw [subImage.scan_match boundary pre top app [] htop hpre]
  simp

/-- **C3, as amended.** Let the source image list the layers `pre ++ top :: app`, where
`boundary` is the diff ID of `top` and of no layer of `pre` (so `pre ++ [top]` are the base
layers and `app` the application layers), and let the new base list `newLayers`. Suppose
every read the
rebase makes succeeds: the digests of the base layers, the diff IDs and digests of the new
base layers and of the application layers (two of them with one diff ID being one layer),
and the two config files, each recording a history entry for every layer of its image;
the repository name parses, the keychain resolves and the registry accepts the push. Then
`Rebase(boundary, newBase)` returns, without error, an image of the same repository whose
layer list is `newLayers ++ app`: the application layers unchanged and in order, every old
base layer replaced. Its config is the source's, its history the new base's entries followed
by the application layers' entries, its creation time the time of the rebase; and that image
is what the call wrote to the registry. -/
theorem Rebase_replaces_base_layers_keeps_app_layers (w : World)
    (i newBaseRemote : GoContainerRegistryImage) (pre : List v1.Layer) (top : v1.Layer)
    (app newLayers : List v1.Layer) (boundary : String) (cfg newCfg : v1.ConfigFile)
    (ref : name.Reference) (keychain : authn.Keychain) (auth : authn.Authenticator)
    (log : RegistryLog)
    (hlayers : i.image.Layers = .ok (pre ++ top :: app))
    (htop : top.DiffID = .ok boundary)
    (hpre : ∀ l ∈ pre, ∃ d, l.DiffID = .ok d ∧ d ≠ boundary)
    (hdig : ∀ l ∈ pre ++ [top], ∃ d, l.Digest = .ok d)
    (hcfg : i.image.ConfigFile = .ok (some cfg))
    (hhist : (pre ++ top :: app).length ≤ cfg.History.length)
    (hnew : newBaseRemote.image.Layers = .ok newLayers)
    (hnewcfg : newBaseRemote.image.ConfigFile = .ok (some newCfg))
    (hnewhist : newLayers.length ≤ newCfg.History.length)
    (hread : ∀ l ∈ newLayers ++ app, (∃ d, l.DiffID = .ok d) ∧ ∃ g, l.Digest = .ok g)
    (hsame : ∀ l ∈ newLayers ++ app, ∀ x ∈ newLayers ++ app, x.DiffID = l.DiffID → x = l)
    (href : w.ParseReference i.repoName = .ok ref)
    (hkc : i.keychain = some keychain)
    (hauth : keychain.Resolve ref.Registry = .ok auth)
    (hwrite : w.WriteError ref auth = none) :
    GoContainerRegistryImage.Rebase w i boundary (.ggcr newBaseRemote) log
      = (.returns
          (some (.ggcr
            { image :=
                { Layers := .ok (newLayers ++ app)
                  ConfigFile := .ok (some
                    { Created := w.Now
                      Config := cfg.Config
                      History := newCfg.History.take newLayers.length
                        ++ (cfg.History.drop (pre.length + 1)).take app.length }) }
              repoName := i.repoName
              keychain := none }), none),
         { ref := ref
           image :=
             { Layers := .ok (newLayers ++ app)
               ConfigFile := .ok (some
                 { Created := w.Now
                   Config := cfg.Config
                   History := newCfg.History.take newLayers.length
                     ++ (cfg.History.drop (pre.length + 1)).take app.length }) }
           auth := some auth
           err := none } :: log) := by
  have hsub := subImage.Layers_of_boundary i.image pre top app boundary hlayers htop hpre
  have hlayers2 : i.image.Layers = .ok ((pre ++ [top]) ++ app) := by
    rw [hlayers]
    simp
  have hrebase := mutate.Rebase_of_bottom_layers i.image newBaseRemote.image (pre ++ [top]) app
    newLayers cfg newCfg hlayers2 hdig hcfg (by simpa using hhist) hnew hnewcfg hnewhist hread
    hsame
  simp only [List.length_append, List.length_singleton] at hrebase
  unfold GoContainerRegistryImage.Rebase
  simp only [hsub, checked, hrebase, mutate.CreatedAt, href, hkc, hauth, remote.Write, hwrite]

/-- Witness for C3: source `[B1, B2, A1, A2]` with boundary the diff ID of `B2` and new
base `[C1, C2, C3]` give `[C1, C2, C3, A1, A2]`. -/
theorem Rebase_replaces_base_layers_keeps_app_layers_witness :
    GoContainerRegistryImage.Rebase
        { Now := 1565000000
          ParseReference := fun s => .ok ⟨"index.docker.io", s, "latest"⟩
          Image := fun _ _ => .error "unused"
          Digest := fun _ => .error "unused"
          WriteError := fun _ _ => none }
        { image :=
            { Layers := .ok [⟨.ok "sha256:b1", .ok "diff:B1"⟩, ⟨.ok "sha256:b2", .ok "diff:B2"⟩,
                             ⟨.ok "sha256:a1", .ok "diff:A1"⟩, ⟨.ok "sha256:a2", .ok "diff:A2"⟩]
              ConfigFile := .ok (some ⟨7, ⟨["PATH=/bin"], [("k", "v")]⟩,
                ["ADD b1", "ADD b2", "ADD a1", "ADD a2"]⟩) }
          repoName := "app/image"
          keychain := some ⟨fun _ => .ok "anonymous"⟩ }
        "diff:B2"
        (.ggcr
          { image :=
              { Layers := .ok [⟨.ok "sha256:c1", .ok "diff:C1"⟩, ⟨.ok "sha256:c2", .ok "diff:C2"⟩,
                               ⟨.ok "sha256:c3", .ok "diff:C3"⟩]
                ConfigFile := .ok (some ⟨9, ⟨[], []⟩, ["ADD c1", "ADD c2", "ADD c3"]⟩) }
            repoName := "run/image"
            keychain := none })
        []
      = (.returns
          (some (.ggcr
            { image :=
                { Layers := .ok [⟨.ok "sha256:c1", .ok "diff:C1"⟩, ⟨.ok "sha256:c2", .ok "diff:C2"⟩,
                                 ⟨.ok "sha256:c3", .ok "diff:C3"⟩,
                                 ⟨.ok "sha256:a1", .ok "diff:A1"⟩, ⟨.ok "sha256:a2", .ok "diff:A2"⟩]
                  ConfigFile := .ok (some ⟨1565000000, ⟨["PATH=/bin"], [("k", "v")]⟩,
                    ["ADD c1", "ADD c2", "ADD c3", "ADD a1", "ADD a2"]⟩) }
              repoName := "app/image"
              keychain := none }), none),
         [{ ref := ⟨"index.docker.io", "app/image", "latest"⟩
            image :=
              { Layers := .ok [⟨.ok "sha256:c1", .ok "diff:C1"⟩, ⟨.ok "sha256:c2", .ok "diff:C2"⟩,
                               ⟨.ok "sha256:c3", .ok "diff:C3"⟩,
                               ⟨.ok "sha256:a1", .ok "diff:A1"⟩, ⟨.ok "sha256:a2", .ok "diff:A2"⟩]
                ConfigFile := .ok (some ⟨1565000000, ⟨["PATH=/bin"], [("k", "v")]⟩,
                  ["ADD c1", "ADD c2", "ADD c3", "ADD a1", "ADD a2"]⟩) }
            auth := some "anonymous"
            err := none }]) :=
  Rebase_replaces_base_layers_keeps_app_layers _ _ _
    [⟨.ok "sha256:b1", .ok "diff:B1"⟩] ⟨.ok "sha256:b2", .ok "diff:B2"⟩
    [⟨.ok "sha256:a1", .ok "diff:A1"⟩, ⟨.ok "sha256:a2", .ok "diff:A2"⟩]
    [⟨.ok "sha256:c1", .ok "diff:C1"⟩, ⟨.ok "sha256:c2", .ok "diff:C2"⟩,
     ⟨.ok "sha256:c3", .ok "diff:C3"⟩]
    "diff:B2" ⟨7, ⟨["PATH=/bin"], [("k", "v")]⟩, ["ADD b1", "ADD b2", "ADD a1", "ADD a2"]⟩
    ⟨9, ⟨[], []⟩, ["ADD c1", "ADD c2", "ADD c3"]⟩
    ⟨"index.docker.io", "app/image", "latest"⟩
    ⟨fun _ => .ok "anonymous"⟩ "anonymous" []
    rfl rfl
    (by
      intro l hl
      simp at hl
      subst hl
      exact ⟨"diff:B1", rfl, by decide⟩)
    (by
      intro l hl
      simp at hl
      rcases hl with rfl | rfl
      · exact ⟨_, rfl⟩
      · exact ⟨_, rfl⟩)
    rfl (by decide) rfl rfl (by decide)
    (by
      intro l hl
      simp at hl
      rcases hl with rfl | rfl | rfl | rfl | rfl <;> exact ⟨⟨_, rfl⟩, ⟨_, rfl⟩⟩)
    (by decide)
    rfl rfl rfl rfl

/-- Counterexample to C3 as stated: source `[B1, B2, A1, A2]` with boundary the diff ID of
`B2`, and a new base with the layers `[C1, C2, C3]` whose config file records no history.
`mutate.Rebase` indexes `newConfig.History[0]` for the first new base layer, so the call
panics: no image is yielded and nothing is written. -/
theorem Rebase_panics_on_new_base_without_history :
    GoContainerRegistryImage.Rebase exampleRegistryWorld
        (exampleAccessor "app/image" exampleOriginal) "diff:B2"
        (.ggcr (exampleAccessor "run/new"
          { Layers := .ok [⟨.ok "sha256:c1", .ok "diff:C1"⟩, ⟨.ok "sha256:c2", .ok "diff:C2"⟩,
                           ⟨.ok "sha256:c3", .ok "diff:C3"⟩]
            ConfigFile := .ok (some
              { Created := 0, Config := { Env := [], Labels := [] }, History := [] }) }))
        []
      = (.panics "index out of range", []) := by
  rfl

/-- With a new base whose `ConfigFile()` fails, the rebase of `[B1, B2, A1, A2]` at `B2`
returns an error and a nil image, and writes nothing. -/
theorem Rebase_fails_on_new_base_with_unreadable_config :
    ∃ err, GoContainerRegistryImage.Rebase exampleRegistryWorld
        (exampleAccessor "app/image" exampleOriginal) "diff:B2"
        (.ggcr (exampleAccessor "run/new"
          { Layers := .ok [⟨.ok "sha256:c1", .ok "diff:C1"⟩]
            ConfigFile := .error "unexpected EOF" }))
        []
      = (.returns (none, some err), []) :=
  ⟨_, rfl⟩

/-- **C4.** When no layer of the source image has the diff ID `topLayer` (whatever the new
base, the world and the registry state), `Rebase` returns an error and a nil image, and the
registry state after the call is the state before it: `remote.Write` was not called. -/
theorem Rebase_absent_boundary_fails_without_write (w : World) (i : GoContainerRegistryImage)
    (topLayer : String) (newBase : RemoteImage) (log : RegistryLog)
    (habsent : ∀ all, i.image.Layers = .ok all → ∀ l ∈ all, l.DiffID ≠ .ok topLayer) :
    ∃ err, GoContainerRegistryImage.Rebase w i topLayer newBase log
      = (.returns (none, some err), log) := by
  cases newBase with
  | other o => exact ⟨_, rfl⟩
  | ggcr newBaseRemote =>
    unfold GoContainerRegistryImage.Rebase
    cases hl : i.image.Layers with
    | error e =>
      simp only [mutate.Rebase, hl]
      exact ⟨_, rfl⟩
    | ok all =>
      obtain ⟨e, he⟩ := subImage.scan_absent topLayer all [] (habsent all hl)
      simp only [mutate.Rebase, hl, subImage.Layers, he, checked]
      exact ⟨_, rfl⟩

/-- Witness for C4: the boundary `diff:X` is the diff ID of no layer of `[B1, A1]`; the call
fails with the boundary error and the registry log stays empty. -/
theorem Rebase_absent_boundary_fails_without_write_witness :
    ∃ err, GoContainerRegistryImage.Rebase
        { Now := 1565000000
          ParseReference := fun s => .ok ⟨"index.docker.io", s, "latest"⟩
          Image := fun _ _ => .error "unused"
          Digest := fun _ => .error "unused"
          WriteError := fun _ _ => none }
        { image :=
            { Layers := .ok [⟨.ok "sha256:b1", .ok "diff:B1"⟩, ⟨.ok "sha256:a1", .ok "diff:A1"⟩]
              ConfigFile := .ok (some ⟨7, ⟨[], []⟩, ["ADD b1", "ADD a1"]⟩) }
          repoName := "app/image"
          keychain := some ⟨fun _ => .ok "anonymous"⟩ }
        "diff:X"
        (.ggcr
          { image := { Layers := .ok [⟨.ok "sha256:c1", .ok "diff:C1"⟩],
                       ConfigFile := .ok (some ⟨9, ⟨[], []⟩, ["ADD c1"]⟩) }
            repoName := "run/image"
            keychain := none })
        []
      = (.returns (none, some err), []) :=
  Rebase_absent_boundary_fails_without_write _ _ _ _ _
    (by
      intro all hall l hl
      have hall2 : all = [⟨.ok "sha256:b1", .ok "diff:B1"⟩, ⟨.ok "sha256:a1", .ok "diff:A1"⟩] :=
        (Except.ok.inj hall).symm
      subst hall2
      simp at hl
      rcases hl with rfl | rfl <;> decide)

end registry

/-! ## `strings.Split` against the text operations -/

theorem splitChars_eq (c : Char) (l : List Char) :
    splitChars c l
      = l.takeWhile (fun x => x != c) ::
          (match l.dropWhile (fun x => x != c) with
           | [] => []
           | _ :: rest => splitChars c rest) := by
  induction l with
  | nil => simp [splitChars]
  | cons x xs ih =>
    by_cases hx : x = c
    · subst hx
      simp [splitChars, List.takeWhile, List.dropWhile]
    · have hne : (x != c) = true := by simp [hx]
      rw [splitChars, if_neg hx, ih]
      simp [List.takeWhile, List.dropWhile, hne]

theorem dropWhile_ne_of_mem (c : Char) (l : List Char) (h : c ∈ l) :
    l.dropWhile (fun x => x != c) = c :: (l.dropWhile (fun x => x != c)).drop 1 := by
  induction l with
  | nil => simp at h
  | cons x xs ih =>
    by_cases hx : x = c
    · subst hx
      simp [List.dropWhile]
    · have hne : (x != c) = true := by simp [hx]
      have hmem : c ∈ xs := by
        rcases List.mem_cons.mp h with h1 | h1
        · exact absurd h1.symm hx
        · exact h1
      simp only [List.dropWhile, hne]
      exact ih hmem

theorem dropWhile_ne_of_not_mem (c : Char) (l : List Char) (h : c ∉ l) :
    l.dropWhile (fun x => x != c) = [] := by
  induction l with
  | nil => rfl
  | cons x xs ih =>
    have hx : x ≠ c := fun e => h (by simp [e])
    have hne : (x != c) = true := by simp [hx]
    have hmem : c ∉ xs := fun e => h (by simp [e])
    simp only [List.dropWhile, hne]
    exact ih hmem

/-- Element 0 of `strings.Split(s, c)` is the text of `s` before its first `c`. -/
theorem index_stringsSplit_zero (s : String) (c : Char) :
    index (stringsSplit s c) 0 = .returns (textBeforeFirst c s) := by
  unfold stringsSplit index textBeforeFirst
  rw [splitChars_eq]
  simp

/-- When `s` holds a `c`, element 1 of `strings.Split(s, c)` is the text of `s` after its
first `c` and before its second. -/
theorem index_stringsSplit_one (s : String) (c : Char) (h : c ∈ s.data) :
    index (stringsSplit s c) 1
      = .returns (textBeforeFirst c (textAfterFirst c s)) := by
  unfold stringsSplit index textBeforeFirst textAfterFirst
  rw [splitChars_eq, dropWhile_ne_of_mem c s.data h]
  simp only [List.drop_succ_cons, List.drop_zero]
  rw [splitChars_eq]
  simp

/-- When `s` holds no `c`, `strings.Split(s, c)` has the one element `s`, and indexing
element 1 panics. -/
theorem index_stringsSplit_one_panics (s : String) (c : Char) (h : c ∉ s.data) :
    index (stringsSplit s c) 1 = .panics "index out of range" := by
  unfold stringsSplit index
  rw [splitChars_eq, dropWhile_ne_of_not_mem c s.data h]
  simp

/-! ## The metadata retriever: `GetBuiltImage` and `GetBuilderImage` -/

namespace cnb

/-- When the reference holds an `@`, the run-image expression of `GetBuiltImage` does not
panic and gives the text of the stack run image before its first `:`, an `@`, and the text of
the reference between its first and its second `@`. -/
theorem runImageOf_of_at (baseRunImage runImageReference : String)
    (h : '@' ∈ runImageReference.data) :
    runImageOf baseRunImage runImageReference
      = .returns (textBeforeFirst ':' baseRunImage ++ "@"
          ++ textBeforeFirst '@' (textAfterFirst '@' runImageReference)) := by
  unfold runImageOf
  rw [index_stringsSplit_zero, index_stringsSplit_one _ _ h]

/-- When the reference holds no `@`, the run-image expression of `GetBuiltImage` panics. -/
theorem runImageOf_without_at (baseRunImage runImageReference : String)
    (h : '@' ∉ runImageReference.data) :
    runImageOf baseRunImage runImageReference = .panics "index out of range" := by
  unfold runImageOf
  rw [index_stringsSplit_zero, index_stringsSplit_one_panics _ _ h]

/-- **C5, as amended.** For a built image whose build-metadata label parses to `bm` and whose
lifecycle-metadata label parses to `lm`, whose creation time and identifier can be read, and
whose lifecycle run-image reference `R` holds an `@`, `GetBuiltImage` succeeds with that
identifier, creation time and buildpack list, and with `RunImage` equal to the text of the
stack run-image string before its first `:` (all of it when it has none), then `@`, then the
text of `R` after its first `@` up to its second `@` (to the end of `R` when there is no
second one). -/
theorem GetBuiltImage_derives_run_image (w : World) (js : Decoders)
    (r : RemoteMetadataRetriever) (ref : registry.ImageRef) (calls : List registry.ImageRef)
    (img : registry.RemoteImage) (buildJSON layerJSON : String) (bm : lcyclemd.BuildMetadata)
    (lm : lcyclemd.LayersMetadata) (t : Time) (ident : String)
    (hnew : r.RemoteImageFactory.NewRemote calls ref = .ok img)
    (hbuild : img.Label lcyclemd.BuildMetadataLabel = (buildJSON, none))
    (hlayer : (img.Label lcyclemd.LayerMetadataLabel).1 = layerJSON)
    (hbm : jsonUnmarshal js.BuildMetadata buildJSON = .ok bm)
    (hlm : jsonUnmarshal js.LayersMetadata layerJSON = .ok lm)
    (hcreated : img.CreatedAt = (t, none))
    (hident : img.Identifier w = (ident, none))
    (hat : '@' ∈ lm.RunImage.Reference.data) :
    RemoteMetadataRetriever.GetBuiltImage w js r ref calls
      = .returns
          ({ Identifier := ident
             CompletedAt := t
             BuildpackMetadata := bm.Buildpacks
             RunImage := textBeforeFirst ':' lm.Stack.RunImage.Image ++ "@"
               ++ textBeforeFirst '@' (textAfterFirst '@' lm.RunImage.Reference) }, none) := by
  unfold RemoteMetadataRetriever.GetBuiltImage
  simp only [hnew, hbuild, hlayer, hbm, hlm, hcreated, hident, runImageOf_of_at _ _ hat]

set_option maxRecDepth 100000 in
/-- Witness for C5: stack run image `cloudfoundry/run:full-cnb` and lifecycle reference
`localhost:5000/node@sha256:0fd6395e...` give `cloudfoundry/run@sha256:0fd6395e...`. -/
theorem GetBuiltImage_derives_run_image_witness :
    RemoteMetadataRetriever.GetBuiltImage exampleWorld exampleJS
        (exampleRetriever exampleBuiltImage) (registry.NewNoAuthImageRef "built/image:tag") []
      = .returns
          ({ Identifier :=
               "index.docker.io/built/image@sha256:dc7e5e790001c71c2cfb175854dd36e65e0b71c58294b331a519be95bdec4ef4"
             CompletedAt := 1565000000
             BuildpackMetadata := [⟨"test.id", "1.2.3"⟩]
             RunImage :=
               "cloudfoundry/run@sha256:0fd6395e4fe38a0c089665cbe10f52fb26fc64b4b15e672ada412bd7ab5499a0" },
           none) := by
  have h := GetBuiltImage_derives_run_image exampleWorld exampleJS
    (exampleRetriever exampleBuiltImage) (registry.NewNoAuthImageRef "built/image:tag") []
    exampleBuiltImage exampleBuildJSON exampleLifecycleJSON exampleBuildMetadata
    exampleLayersMetadata 1565000000
    "index.docker.io/built/image@sha256:dc7e5e790001c71c2cfb175854dd36e65e0b71c58294b331a519be95bdec4ef4"
    rfl (by decide) (by decide) (by decide) (by decide) rfl rfl (by decide)
  rw [h]
  decide


set_option maxRecDepth 100000 in
/-- Counterexample to C5 as stated: with the lifecycle run-image reference
`localhost:5000/node@sha256:0fd6@sha256:1e55`, `GetBuiltImage` succeeds with `RunImage`
`cloudfoundry/run@sha256:0fd6`, which is not the repository followed by `@` and the text
after the first `@` of the reference, `cloudfoundry/run@sha256:0fd6@sha256:1e55`. -/
theorem GetBuiltImage_run_image_stops_at_second_at :
    RemoteMetadataRetriever.GetBuiltImage exampleWorld
        (exampleDecoders (exampleBuilderJSON, exampleBuilderMetadata)
          (exampleBuildJSON, exampleBuildMetadata) (exampleTwoAtJSON, exampleTwoAtMetadata))
        (exampleRetriever (exampleBuiltImageWith exampleTwoAtJSON))
        (registry.NewNoAuthImageRef "built/image:tag") []
      = .returns
          ({ Identifier := "index.docker.io/built/image@sha256:dc7e"
             CompletedAt := 1565000000
             BuildpackMetadata := [⟨"test.id", "1.2.3"⟩]
             RunImage := "cloudfoundry/run@sha256:0fd6" }, none)
    ∧ specRunImage "cloudfoundry/run:full-cnb" "localhost:5000/node@sha256:0fd6@sha256:1e55"
      = "cloudfoundry/run@sha256:0fd6@sha256:1e55"
    ∧ "cloudfoundry/run@sha256:0fd6"
      ≠ specRunImage "cloudfoundry/run:full-cnb" "localhost:5000/node@sha256:0fd6@sha256:1e55" := by
  refine ⟨?_, ?_, ?_⟩ <;> decide

set_option maxRecDepth 100000 in
/-- **C6, the code at the failing input.** For a built image whose two labels parse and whose
lifecycle run-image reference is `localhost:5000/node:latest`, without `@`, `GetBuiltImage`
does not return: indexing element 1 of the one-element result of `strings.Split` panics. -/
theorem GetBuiltImage_panics_on_reference_without_digest :
    RemoteMetadataRetriever.GetBuiltImage exampleWorld
        (exampleDecoders (exampleBuilderJSON, exampleBuilderMetadata)
          (exampleBuildJSON, exampleBuildMetadata) (exampleNoDigestJSON, exampleNoDigestMetadata))
        (exampleRetriever (exampleBuiltImageWith exampleNoDigestJSON))
        (registry.NewNoAuthImageRef "built/image:tag") []
      = .panics "index out of range" := by
  decide

/-- **C7.** For an image whose build-metadata label is read without error and parses, and for
which reading the lifecycle-metadata label hands back the empty string (the label is
absent), `GetBuiltImage` returns the zero-valued `BuiltImage` together with the error
"unexpected end of JSON input" of parsing that empty string, whatever error the read of the
label itself gave: that error is never tested. -/
theorem GetBuiltImage_missing_lifecycle_label_is_error (w : World) (js : Decoders)
    (r : RemoteMetadataRetriever) (ref : registry.ImageRef) (calls : List registry.ImageRef)
    (img : registry.RemoteImage) (buildJSON : String) (bm : lcyclemd.BuildMetadata)
    (hnew : r.RemoteImageFactory.NewRemote calls ref = .ok img)
    (hbuild : img.Label lcyclemd.BuildMetadataLabel = (buildJSON, none))
    (hbm : jsonUnmarshal js.BuildMetadata buildJSON = .ok bm)
    (hlack : (img.Label lcyclemd.LayerMetadataLabel).1 = "") :
    RemoteMetadataRetriever.GetBuiltImage w js r ref calls
      = .returns
          ({ Identifier := "", CompletedAt := 0, BuildpackMetadata := [], RunImage := "" },
           some "unexpected end of JSON input") := by
  have hempty : jsonUnmarshal js.LayersMetadata "" = .error "unexpected end of JSON input" := by
    simp [jsonUnmarshal]
  unfold RemoteMetadataRetriever.GetBuiltImage
  simp only [hnew, hbuild, hbm, hlack, hempty, BuiltImage.zero]

set_option maxRecDepth 100000 in
/-- Witness for C7: a registry-backed image whose label map holds the build-metadata label
and nothing else. -/
theorem GetBuiltImage_missing_lifecycle_label_is_error_witness :
    RemoteMetadataRetriever.GetBuiltImage exampleWorld exampleJS
        (exampleRetriever exampleUnlabelledImage) (registry.NewNoAuthImageRef "built/image:tag") []
      = .returns
          ({ Identifier := "", CompletedAt := 0, BuildpackMetadata := [], RunImage := "" },
           some "unexpected end of JSON input") :=
  GetBuiltImage_missing_lifecycle_label_is_error exampleWorld exampleJS
    (exampleRetriever exampleUnlabelledImage) (registry.NewNoAuthImageRef "built/image:tag") []
    exampleUnlabelledImage exampleBuildJSON exampleBuildMetadata rfl (by decide) (by decide)
    (by decide)

/-- **C8.** For a builder image that the factory resolves for `repo`, whose builder-metadata
label is read without error and parses to `md`, and whose identifier is `ident`,
`GetBuilderImage` makes exactly two `NewRemote` requests, in this order: `repo`, then
`NewNoAuthImageRef` of the stack run-image string of `md`. When that second request resolves
to an image with identifier `runIdent`, the result is, without error, the buildpack list of
`md` unchanged, `Identifier = ident` and `RunImage = runIdent`. -/
theorem GetBuilderImage_requests_builder_then_run_image (w : World) (js : Decoders)
    (r : RemoteMetadataRetriever) (repo : registry.ImageRef) (calls : List registry.ImageRef)
    (img : registry.RemoteImage) (metadataJSON : String) (md : BuilderImageMetadata)
    (ident : String)
    (hnew : r.RemoteImageFactory.NewRemote calls repo = .ok img)
    (hlabel : img.Label BuilderMetadataLabel = (metadataJSON, none))
    (hmd : jsonUnmarshal js.BuilderImageMetadata metadataJSON = .ok md)
    (hident : img.Identifier w = (ident, none)) :
    (RemoteMetadataRetriever.GetBuilderImage w js r repo calls).2
        = calls ++ [repo, registry.NewNoAuthImageRef md.Stack.RunImage.Image]
      ∧ ∀ (runImage : registry.RemoteImage) (runIdent : String),
          r.RemoteImageFactory.NewRemote (calls ++ [repo])
              (registry.NewNoAuthImageRef md.Stack.RunImage.Image) = .ok runImage →
          runImage.Identifier w = (runIdent, none) →
          (RemoteMetadataRetriever.GetBuilderImage w js r repo calls).1
            = ({ BuilderBuildpackMetadata := md.Buildpacks
                 RunImage := runIdent
                 Identifier := ident }, none) := by
  constructor
  · unfold RemoteMetadataRetriever.GetBuilderImage
    simp only [hnew, hlabel, hmd, hident]
    cases h2 : r.RemoteImageFactory.NewRemote (calls ++ [repo])
        (registry.NewNoAuthImageRef md.Stack.RunImage.Image) with
    | error e => simp
    | ok runImage =>
      rcases hr : runImage.Identifier w with ⟨s, _ | e⟩ <;> simp [hr]
  · intro runImage runIdent h2 hr
    unfold RemoteMetadataRetriever.GetBuilderImage
    simp only [hnew, hlabel, hmd, hident, h2, hr]

set_option maxRecDepth 100000 in
/-- Witness for C8: the builder-metadata label with the one buildpack `test.id` `1.2.3` and
run image `foo.io/run:basecnb` gives one entry, the run image's identifier
`foo.io/run@sha256:c9d1...`, and the requests `test-repo-name`, `foo.io/run:basecnb`. -/
theorem GetBuilderImage_requests_builder_then_run_image_witness :
    RemoteMetadataRetriever.GetBuilderImage exampleWorld exampleJS
        { RemoteImageFactory := exampleBuilderFactory }
        (registry.NewNoAuthImageRef "test-repo-name") []
      = (({ BuilderBuildpackMetadata := [⟨"test.id", "1.2.3"⟩]
            RunImage :=
              "foo.io/run@sha256:c9d19ce90add2f415b859908952bc85afc0ee0aec012b3889cf5f2e9690bb504"
            Identifier :=
              "index.docker.io/builder/image@sha256:2bc85afc0ee0aec012b3889cf5f2e9690bb504c9d19ce90add2f415b85990895" },
          none),
         [registry.NewNoAuthImageRef "test-repo-name",
          registry.NewNoAuthImageRef "foo.io/run:basecnb"]) := by
  have h := GetBuilderImage_requests_builder_then_run_image exampleWorld exampleJS
    { RemoteImageFactory := exampleBuilderFactory }
    (registry.NewNoAuthImageRef "test-repo-name") []
    (exampleRemoteImage
      "index.docker.io/builder/image@sha256:2bc85afc0ee0aec012b3889cf5f2e9690bb504c9d19ce90add2f415b85990895"
      1565000000 [("io.buildpacks.builder.metadata", exampleBuilderJSON)])
    exampleBuilderJSON exampleBuilderMetadata
    "index.docker.io/builder/image@sha256:2bc85afc0ee0aec012b3889cf5f2e9690bb504c9d19ce90add2f415b85990895"
    rfl (by decide) (by decide) rfl
  exact Prod.ext
    (h.2 (exampleRemoteImage
        "foo.io/run@sha256:c9d19ce90add2f415b859908952bc85afc0ee0aec012b3889cf5f2e9690bb504"
        1565000000 [])
      "foo.io/run@sha256:c9d19ce90add2f415b859908952bc85afc0ee0aec012b3889cf5f2e9690bb504"
      rfl rfl)
    h.1

end cnb

/-! ## The accessor `Env` -/

namespace registry

/-- **C9, the code at the failing input.** With the environment list
`["JAVA_TOOL_OPTIONS=-Dfile.encoding=UTF-8"]` and the key `JAVA_TOOL_OPTIONS`, `Env` returns
`-Dfile.encoding` without error, while the value of the entry, all text after its first `=`,
is `-Dfile.encoding=UTF-8`. -/
theorem Env_cuts_value_at_second_equals_sign :
    GoContainerRegistryImage.Env
        (exampleImageWithEnv ["JAVA_TOOL_OPTIONS=-Dfile.encoding=UTF-8"]) "JAVA_TOOL_OPTIONS"
      = .returns ("-Dfile.encoding", none)
    ∧ specEnvValue "JAVA_TOOL_OPTIONS=-Dfile.encoding=UTF-8" = "-Dfile.encoding=UTF-8" := by
  constructor <;> decide

end registry

/-! ## The two rebase variants -/

namespace registry

/-- What `NewGoContainerRegistryImage` returns when it succeeds. -/
theorem NewGoContainerRegistryImage_some (w : World) (repoName : String)
    (keychain : authn.Keychain) (i : GoContainerRegistryImage)
    (h : NewGoContainerRegistryImage w repoName keychain = (some i, none)) :
    i.repoName = repoName ∧ i.keychain = some keychain := by
  unfold NewGoContainerRegistryImage at h
  cases hv : newV1Image w keychain repoName with
  | error e => simp [hv] at h
  | ok image =>
    simp only [hv, Prod.mk.injEq, Option.some.injEq, and_true] at h
    subst h
    exact ⟨rfl, rfl⟩

/-- **C10, as amended.** Let `orig`, `oldBase` and `latestBase` resolve to images, the layers
of the old base be `pre ++ [top]` and those of the original `pre ++ top :: app`, and let
`boundary`, the diff ID of the old base's last layer `top`, be the diff ID of no layer of
`pre`. Suppose every read the rebase makes succeeds (the digests of the base layers, the diff
IDs and digests of the new base layers and of the application layers, two of them with one
diff ID being one layer, and the config files of the original and of the new base, each
recording a history entry for every layer of its image), the keychain resolves and the
registry accepts the push. Then `ImageRebaser.Rebase(orig, oldBase, latestBase)` and
`Rebase(boundary, latestBase)` on the same original each return without error an accessor of
the repository of `orig`, and each make one push to that repository, of an image with the
layer list `newLayers ++ app`, the config of the original and the same history; the creation
times `t₁` and `t₂` of the two images are left open. -/
theorem rebase_variants_publish_same_layers_and_config (w : World) (f : ImageRebaser)
    (orig oldBase latestBase : ImageRef)
    (origImage oldBaseImage latestBaseImage : GoContainerRegistryImage)
    (pre : List v1.Layer) (top : v1.Layer) (app newLayers : List v1.Layer) (boundary : String)
    (cfg newCfg : v1.ConfigFile) (ref : name.Reference) (auth : authn.Authenticator)
    (log : RegistryLog)
    (horig : NewGoContainerRegistryImage w orig.Image
      (f.KeychainFactory.KeychainForImageRef orig) = (some origImage, none))
    (hold : NewGoContainerRegistryImage w oldBase.Image
      (f.KeychainFactory.KeychainForImageRef oldBase) = (some oldBaseImage, none))
    (hlatest : NewGoContainerRegistryImage w latestBase.Image
      (f.KeychainFactory.KeychainForImageRef latestBase) = (some latestBaseImage, none))
    (holdLayers : oldBaseImage.image.Layers = .ok (pre ++ [top]))
    (horigLayers : origImage.image.Layers = .ok (pre ++ top :: app))
    (htop : top.DiffID = .ok boundary)
    (hpre : ∀ l ∈ pre, ∃ d, l.DiffID = .ok d ∧ d ≠ boundary)
    (hdig : ∀ l ∈ pre ++ [top], ∃ d, l.Digest = .ok d)
    (hcfg : origImage.image.ConfigFile = .ok (some cfg))
    (hhist : (pre ++ top :: app).length ≤ cfg.History.length)
    (hnew : latestBaseImage.image.Layers = .ok newLayers)
    (hnewcfg : latestBaseImage.image.ConfigFile = .ok (some newCfg))
    (hnewhist : newLayers.length ≤ newCfg.History.length)
    (hread : ∀ l ∈ newLayers ++ app, (∃ d, l.DiffID = .ok d) ∧ ∃ g, l.Digest = .ok g)
    (hsame : ∀ l ∈ newLayers ++ app, ∀ x ∈ newLayers ++ app, x.DiffID = l.DiffID → x = l)
    (href : w.ParseReference orig.Image = .ok ref)
    (hauth : (f.KeychainFactory.KeychainForImageRef orig).Resolve ref.Registry = .ok auth)
    (hwrite : w.WriteError ref auth = none) :
    ∃ t₁ t₂ : Time,
      ImageRebaser.Rebase w f orig oldBase latestBase log
        = (.returns
            (some (.ggcr
              { image :=
                  { Layers := .ok (newLayers ++ app)
                    ConfigFile := .ok (some
                      { Created := t₁
                        Config := cfg.Config
                        History := newCfg.History.take newLayers.length
                          ++ (cfg.History.drop (pre.length + 1)).take app.length }) }
                repoName := orig.Image
                keychain := none }), none),
           { ref := ref
             image :=
               { Layers := .ok (newLayers ++ app)
                 ConfigFile := .ok (some
                   { Created := t₁
                     Config := cfg.Config
                     History := newCfg.History.take newLayers.length
                       ++ (cfg.History.drop (pre.length + 1)).take app.length }) }
             auth := some auth
             err := none } :: log)
      ∧ GoContainerRegistryImage.Rebase w origImage boundary (.ggcr latestBaseImage) log
        = (.returns
            (some (.ggcr
              { image :=
                  { Layers := .ok (newLayers ++ app)
                    ConfigFile := .ok (some
                      { Created := t₂
                        Config := cfg.Config
                        History := newCfg.History.take newLayers.length
                          ++ (cfg.History.drop (pre.length + 1)).take app.length }) }
                repoName := orig.Image
                keychain := none }), none),
           { ref := ref
             image :=
               { Layers := .ok (newLayers ++ app)
                 ConfigFile := .ok (some
                   { Created := t₂
                     Config := cfg.Config
                     History := newCfg.History.take newLayers.length
                       ++ (cfg.History.drop (pre.length + 1)).take app.length }) }
             auth := some auth
             err := none } :: log) := by
  obtain ⟨hname, hkc⟩ := NewGoContainerRegistryImage_some _ _ _ _ horig
  have hlayers2 : origImage.image.Layers = .ok ((pre ++ [top]) ++ app) := by
    rw [horigLayers]
    simp
  have hrebase := mutate.Rebase_of_bottom_layers origImage.image latestBaseImage.image
    (pre ++ [top]) app newLayers cfg newCfg hlayers2 hdig hcfg (by simpa using hhist) hnew
    hnewcfg hnewhist hread hsame
  simp only [List.length_append, List.length_singleton] at hrebase
  refine ⟨0, w.Now, ?_, ?_⟩
  · unfold ImageRebaser.Rebase
    simp only [horig, hold, hlatest, holdLayers, hrebase, hname, href, remote.WriteFromKeychain,
      hauth, remote.Write, hwrite]
  · have hsub :=
      subImage.Layers_of_boundary origImage.image pre top app boundary horigLayers htop hpre
    unfold GoContainerRegistryImage.Rebase
    simp only [hsub, checked, hrebase, mutate.CreatedAt, hname, href, hkc, hauth, remote.Write,
      hwrite]

/-- Witness for C10 as amended: original `app/image` with layers `B1, B2, A1, A2`, old base
`run/old` with layers `B1, B2`, new base `run/new` with layers `C1, C2, C3`; both variants
push `C1, C2, C3, A1, A2` with the config of the original to `app/image`. -/
theorem rebase_variants_publish_same_layers_and_config_witness :
    ∃ t₁ t₂ : Time,
      ImageRebaser.Rebase exampleRegistryWorld exampleRebaser (NewNoAuthImageRef "app/image")
          (NewNoAuthImageRef "run/old") (NewNoAuthImageRef "run/new") []
        = (.returns
            (some (.ggcr
              { image :=
                  { Layers := .ok [⟨.ok "sha256:c1", .ok "diff:C1"⟩, ⟨.ok "sha256:c2", .ok "diff:C2"⟩,
                                   ⟨.ok "sha256:c3", .ok "diff:C3"⟩,
                                   ⟨.ok "sha256:a1", .ok "diff:A1"⟩, ⟨.ok "sha256:a2", .ok "diff:A2"⟩]
                    ConfigFile := .ok (some
                      { Created := t₁
                        Config := ⟨["PATH=/bin"], []⟩
                        History := ["ADD c1", "ADD c2", "ADD c3", "ADD a1", "ADD a2"] }) }
                repoName := "app/image"
                keychain := none }), none),
           [{ ref := ⟨"index.docker.io", "app/image", "latest"⟩
              image :=
                { Layers := .ok [⟨.ok "sha256:c1", .ok "diff:C1"⟩, ⟨.ok "sha256:c2", .ok "diff:C2"⟩,
                                 ⟨.ok "sha256:c3", .ok "diff:C3"⟩,
                                 ⟨.ok "sha256:a1", .ok "diff:A1"⟩, ⟨.ok "sha256:a2", .ok "diff:A2"⟩]
                  ConfigFile := .ok (some
                    { Created := t₁
                      Config := ⟨["PATH=/bin"], []⟩
                      History := ["ADD c1", "ADD c2", "ADD c3", "ADD a1", "ADD a2"] }) }
              auth := some "anonymous"
              err := none }])
      ∧ GoContainerRegistryImage.Rebase exampleRegistryWorld
          (exampleAccessor "app/image" exampleOriginal) "diff:B2"
          (.ggcr (exampleAccessor "run/new" exampleNewBase)) []
        = (.returns
            (some (.ggcr
              { image :=
                  { Layers := .ok [⟨.ok "sha256:c1", .ok "diff:C1"⟩, ⟨.ok "sha256:c2", .ok "diff:C2"⟩,
                                   ⟨.ok "sha256:c3", .ok "diff:C3"⟩,
                                   ⟨.ok "sha256:a1", .ok "diff:A1"⟩, ⟨.ok "sha256:a2", .ok "diff:A2"⟩]
                    ConfigFile := .ok (some
                      { Created := t₂
                        Config := ⟨["PATH=/bin"], []⟩
                        History := ["ADD c1", "ADD c2", "ADD c3", "ADD a1", "ADD a2"] }) }
                repoName := "app/image"
                keychain := none }), none),
           [{ ref := ⟨"index.docker.io", "app/image", "latest"⟩
              image :=
                { Layers := .ok [⟨.ok "sha256:c1", .ok "diff:C1"⟩, ⟨.ok "sha256:c2", .ok "diff:C2"⟩,
                                 ⟨.ok "sha256:c3", .ok "diff:C3"⟩,
                                 ⟨.ok "sha256:a1", .ok "diff:A1"⟩, ⟨.ok "sha256:a2", .ok "diff:A2"⟩]
                  ConfigFile := .ok (some
                    { Created := t₂
                      Config := ⟨["PATH=/bin"], []⟩
                      History := ["ADD c1", "ADD c2", "ADD c3", "ADD a1", "ADD a2"] }) }
              auth := some "anonymous"
              err := none }]) :=
  rebase_variants_publish_same_layers_and_config exampleRegistryWorld exampleRebaser
    (NewNoAuthImageRef "app/image") (NewNoAuthImageRef "run/old") (NewNoAuthImageRef "run/new")
    (exampleAccessor "app/image" exampleOriginal) (exampleAccessor "run/old" exampleOldBase)
    (exampleAccessor "run/new" exampleNewBase)
    [⟨.ok "sha256:b1", .ok "diff:B1"⟩] ⟨.ok "sha256:b2", .ok "diff:B2"⟩
    [⟨.ok "sha256:a1", .ok "diff:A1"⟩, ⟨.ok "sha256:a2", .ok "diff:A2"⟩]
    [⟨.ok "sha256:c1", .ok "diff:C1"⟩, ⟨.ok "sha256:c2", .ok "diff:C2"⟩,
     ⟨.ok "sha256:c3", .ok "diff:C3"⟩]
    "diff:B2"
    { Created := 0, Config := ⟨["PATH=/bin"], []⟩
      History := ["ADD b1", "ADD b2", "ADD a1", "ADD a2"] }
    { Created := 0, Config := ⟨[], []⟩, History := ["ADD c1", "ADD c2", "ADD c3"] }
    ⟨"index.docker.io", "app/image", "latest"⟩ "anonymous" []
    rfl rfl rfl rfl rfl rfl
    (by
      intro l hl
      simp at hl
      subst hl
      exact ⟨"diff:B1", rfl, by decide⟩)
    (by
      intro l hl
      simp at hl
      rcases hl with rfl | rfl
      · exact ⟨_, rfl⟩
      · exact ⟨_, rfl⟩)
    rfl (by decide) rfl rfl (by decide)
    (by
      intro l hl
      simp at hl
      rcases hl with rfl | rfl | rfl | rfl | rfl <;> exact ⟨⟨_, rfl⟩, ⟨_, rfl⟩⟩)
    (by decide)
    rfl rfl rfl

/-- Counterexample to C10 as stated, on two inputs. (1) Original `app/image` (layers
`B1, B2, A1, A2`), old base `run/old` (layers `B1, B2`), new base `run/new`: the
three-reference variant pushes an image with the zero creation time, the explicit-boundary
variant, called on the same original with the diff ID of `B2`, one with the creation time
`time.Now()`. (2) Original `app/twice` (layers `E, E, A1`, the two base layers with the same
diff ID), old base `run/twice` (layers `E, E`): the three-reference variant pushes the layers
`C1, C2, C3, A1`, the explicit-boundary variant, called with the diff ID of the old base's
last layer, pushes `C1, C2, C3, E, A1`. -/
theorem rebase_variants_differ_in_creation_time_and_on_repeated_diff_id :
    (NewGoContainerRegistryImage exampleRegistryWorld "app/image" exampleKeychain
        = (some (exampleAccessor "app/image" exampleOriginal), none)
      ∧ (ImageRebaser.Rebase exampleRegistryWorld exampleRebaser (NewNoAuthImageRef "app/image")
            (NewNoAuthImageRef "run/old") (NewNoAuthImageRef "run/new") []).2
        = [{ ref := ⟨"index.docker.io", "app/image", "latest"⟩
             image :=
               { Layers := .ok [⟨.ok "sha256:c1", .ok "diff:C1"⟩, ⟨.ok "sha256:c2", .ok "diff:C2"⟩,
                                ⟨.ok "sha256:c3", .ok "diff:C3"⟩,
                                ⟨.ok "sha256:a1", .ok "diff:A1"⟩, ⟨.ok "sha256:a2", .ok "diff:A2"⟩]
                 ConfigFile := .ok (some
                   { Created := 0
                     Config := ⟨["PATH=/bin"], []⟩
                     History := ["ADD c1", "ADD c2", "ADD c3", "ADD a1", "ADD a2"] }) }
             auth := some "anonymous"
             err := none }]
      ∧ (GoContainerRegistryImage.Rebase exampleRegistryWorld
            (exampleAccessor "app/image" exampleOriginal) "diff:B2"
            (.ggcr (exampleAccessor "run/new" exampleNewBase)) []).2
        = [{ ref := ⟨"index.docker.io", "app/image", "latest"⟩
             image :=
               { Layers := .ok [⟨.ok "sha256:c1", .ok "diff:C1"⟩, ⟨.ok "sha256:c2", .ok "diff:C2"⟩,
                                ⟨.ok "sha256:c3", .ok "diff:C3"⟩,
                                ⟨.ok "sha256:a1", .ok "diff:A1"⟩, ⟨.ok "sha256:a2", .ok "diff:A2"⟩]
                 ConfigFile := .ok (some
                   { Created := 1565000000
                     Config := ⟨["PATH=/bin"], []⟩
                     History := ["ADD c1", "ADD c2", "ADD c3", "ADD a1", "ADD a2"] }) }
             auth := some "anonymous"
             err := none }]
      ∧ (ImageRebaser.Rebase exampleRegistryWorld exampleRebaser (NewNoAuthImageRef "app/image")
            (NewNoAuthImageRef "run/old") (NewNoAuthImageRef "run/new") []).2
        ≠ (GoContainerRegistryImage.Rebase exampleRegistryWorld
            (exampleAccessor "app/image" exampleOriginal) "diff:B2"
            (.ggcr (exampleAccessor "run/new" exampleNewBase)) []).2)
    ∧ (NewGoContainerRegistryImage exampleRegistryWorld "app/twice" exampleKeychain
        = (some (exampleAccessor "app/twice" exampleRepeated), none)
      ∧ (ImageRebaser.Rebase exampleRegistryWorld exampleRebaser (NewNoAuthImageRef "app/twice")
            (NewNoAuthImageRef "run/twice") (NewNoAuthImageRef "run/new") []).2
        = [{ ref := ⟨"index.docker.io", "app/twice", "latest"⟩
             image :=
               { Layers := .ok [⟨.ok "sha256:c1", .ok "diff:C1"⟩, ⟨.ok "sha256:c2", .ok "diff:C2"⟩,
                                ⟨.ok "sha256:c3", .ok "diff:C3"⟩, ⟨.ok "sha256:a1", .ok "diff:A1"⟩]
                 ConfigFile := .ok (some
                   { Created := 0
                     Config := ⟨[], []⟩
                     History := ["ADD c1", "ADD c2", "ADD c3", "ADD a1"] }) }
             auth := some "anonymous"
             err := none }]
      ∧ (GoContainerRegistryImage.Rebase exampleRegistryWorld
            (exampleAccessor "app/twice" exampleRepeated) "diff:E"
            (.ggcr (exampleAccessor "run/new" exampleNewBase)) []).2
        = [{ ref := ⟨"index.docker.io", "app/twice", "latest"⟩
             image :=
               { Layers := .ok [⟨.ok "sha256:c1", .ok "diff:C1"⟩, ⟨.ok "sha256:c2", .ok "diff:C2"⟩,
                                ⟨.ok "sha256:c3", .ok "diff:C3"⟩, ⟨.ok "sha256:e", .ok "diff:E"⟩,
                                ⟨.ok "sha256:a1", .ok "diff:A1"⟩]
                 ConfigFile := .ok (some
                   { Created := 1565000000
                     Config := ⟨[], []⟩
                     History := ["ADD c1", "ADD c2", "ADD c3", "ADD e", "ADD a1"] }) }
             auth := some "anonymous"
             err := none }]) := by
  refine ⟨⟨rfl, ?_, ?_, ?_⟩, rfl, ?_, ?_⟩ <;> decide

end registry

/-! ## What the code does at the two defects, in general -/

namespace registry

/-- For an environment list whose entries all hold an `=`, the loop of `Env` returns, without
error and without panic, for the first entry whose text before the first `=` is `key`, the
text between its first and its second `=` (to the end when there is no second one); and the
empty string when no entry has that key. -/
theorem GoContainerRegistryImage.envLoop_eq (key : String) (env : List String)
    (h : ∀ e ∈ env, '=' ∈ e.data) :
    GoContainerRegistryImage.envLoop key env
      = .returns
          ((match env.find? (fun e => decide (textBeforeFirst '=' e = key)) with
            | some e => textBeforeFirst '=' (textAfterFirst '=' e)
            | none => ""), none) := by
  induction env with
  | nil => rfl
  | cons e rest ih =>
    have he : '=' ∈ e.data := h e (by simp)
    have hrest : ∀ x ∈ rest, '=' ∈ x.data := fun x hx => h x (by simp [hx])
    unfold GoContainerRegistryImage.envLoop
    simp only [index_stringsSplit_zero, index_stringsSplit_one _ _ he]
    by_cases hk : textBeforeFirst '=' e = key
    · simp [hk, List.find?]
    · simp [hk, List.find?, ih hrest]

/-- The behaviour of `Env` on a well-formed environment list: the value returned for a key is
the text of the first matching entry between its first and second `=`. -/
theorem Env_returns_text_up_to_second_equals_sign (i : GoContainerRegistryImage)
    (cfg : v1.ConfigFile) (key : String) (hcfg : i.image.ConfigFile = .ok (some cfg))
    (h : ∀ e ∈ cfg.Config.Env, '=' ∈ e.data) :
    GoContainerRegistryImage.Env i key
      = .returns
          ((match cfg.Config.Env.find? (fun e => decide (textBeforeFirst '=' e = key)) with
            | some e => textBeforeFirst '=' (textAfterFirst '=' e)
            | none => ""), none) := by
  unfold GoContainerRegistryImage.Env GoContainerRegistryImage.configFile
  simp only [hcfg]
  exact GoContainerRegistryImage.envLoop_eq key cfg.Config.Env h

/-- Witness: with the entries `PATH=/bin` and `HOME=/root`, the key `HOME` gives `/root`. -/
theorem Env_returns_text_up_to_second_equals_sign_witness :
    GoContainerRegistryImage.Env (exampleImageWithEnv ["PATH=/bin", "HOME=/root"]) "HOME"
      = .returns ("/root", none) := by
  have h := Env_returns_text_up_to_second_equals_sign
    (exampleImageWithEnv ["PATH=/bin", "HOME=/root"])
    { Created := 1565000000, Config := { Env := ["PATH=/bin", "HOME=/root"], Labels := [] },
      History := [] }
    "HOME" rfl
    (by
      intro e he
      simp at he
      rcases he with rfl | rfl <;> decide)
  rw [h]
  decide

/-- The accessor `Label` never fails on a key the label map lacks: when the config can be
read, it returns the empty string and no error. -/
theorem Label_of_absent_key_is_empty (i : GoContainerRegistryImage) (cfg : v1.ConfigFile)
    (key : String) (hcfg : i.image.ConfigFile = .ok (some cfg))
    (habsent : cfg.Config.Labels.lookup key = none) :
    GoContainerRegistryImage.Label i key = ("", none) := by
  unfold GoContainerRegistryImage.Label GoContainerRegistryImage.configFile
  simp only [hcfg, mapIndex, habsent, Option.getD]

/-- Witness: an image without labels, asked for the lifecycle-metadata label. -/
theorem Label_of_absent_key_is_empty_witness :
    GoContainerRegistryImage.Label (exampleImageWithEnv []) "io.buildpacks.lifecycle.metadata"
      = ("", none) :=
  Label_of_absent_key_is_empty (exampleImageWithEnv [])
    { Created := 1565000000, Config := { Env := [], Labels := [] }, History := [] }
    "io.buildpacks.lifecycle.metadata" rfl rfl

end registry

namespace cnb

/-- Whenever both labels of a built image parse, its creation time and identifier can be
read, and the lifecycle run-image reference holds no `@`, `GetBuiltImage` panics on the index
expression instead of returning. -/
theorem GetBuiltImage_panics_whenever_reference_lacks_at (w : World) (js : Decoders)
    (r : RemoteMetadataRetriever) (ref : registry.ImageRef) (calls : List registry.ImageRef)
    (img : registry.RemoteImage) (buildJSON layerJSON : String) (bm : lcyclemd.BuildMetadata)
    (lm : lcyclemd.LayersMetadata) (t : Time) (ident : String)
    (hnew : r.RemoteImageFactory.NewRemote calls ref = .ok img)
    (hbuild : img.Label lcyclemd.BuildMetadataLabel = (buildJSON, none))
    (hlayer : (img.Label lcyclemd.LayerMetadataLabel).1 = layerJSON)
    (hbm : jsonUnmarshal js.BuildMetadata buildJSON = .ok bm)
    (hlm : jsonUnmarshal js.LayersMetadata layerJSON = .ok lm)
    (hcreated : img.CreatedAt = (t, none))
    (hident : img.Identifier w = (ident, none))
    (hat : '@' ∉ lm.RunImage.Reference.data) :
    RemoteMetadataRetriever.GetBuiltImage w js r ref calls = .panics "index out of range" := by
  unfold RemoteMetadataRetriever.GetBuiltImage
  simp only [hnew, hbuild, hlayer, hbm, hlm, hcreated, hident, runImageOf_without_at _ _ hat]

set_option maxRecDepth 100000 in
/-- Witness: the lifecycle run-image reference `localhost:5000/node:latest`. -/
theorem GetBuiltImage_panics_whenever_reference_lacks_at_witness :
    RemoteMetadataRetriever.GetBuiltImage exampleWorld
        (exampleDecoders (exampleBuilderJSON, exampleBuilderMetadata)
          (exampleBuildJSON, exampleBuildMetadata) (exampleNoDigestJSON, exampleNoDigestMetadata))
        (exampleRetriever (exampleBuiltImageWith exampleNoDigestJSON))
        (registry.NewNoAuthImageRef "built/image:tag") []
      = .panics "index out of range" :=
  GetBuiltImage_panics_whenever_reference_lacks_at exampleWorld
    (exampleDecoders (exampleBuilderJSON, exampleBuilderMetadata)
      (exampleBuildJSON, exampleBuildMetadata) (exampleNoDigestJSON, exampleNoDigestMetadata))
    (exampleRetriever (exampleBuiltImageWith exampleNoDigestJSON))
    (registry.NewNoAuthImageRef "built/image:tag") []
    (exampleBuiltImageWith exampleNoDigestJSON) exampleBuildJSON exampleNoDigestJSON
    exampleBuildMetadata exampleNoDigestMetadata 1565000000
    "index.docker.io/built/image@sha256:dc7e"
    rfl (by decide) (by decide) (by decide) (by decide) rfl rfl (by decide)

end cnb

/-! ## Rebase from builder metadata: `cnb.ImageRebaser.Rebase` -/

namespace registry

/-- An accessor whose image has no layer with diff ID `topLayer` fails to rebase, with a nil
image, and leaves the registry state as it was. -/
theorem GoContainerRegistryImage.Rebase_without_boundary (w : World)
    (i : GoContainerRegistryImage) (topLayer : String) (newBase : RemoteImage)
    (log : RegistryLog)
    (habsent : ∀ all, i.image.Layers = .ok all → ∀ l ∈ all, l.DiffID ≠ .ok topLayer) :
    ∃ err, GoContainerRegistryImage.Rebase w i topLayer newBase log
      = (.returns (none, some err), log) := by
  cases newBase with
  | other o => exact ⟨_, rfl⟩
  | ggcr newBaseRemote =>
    unfold GoContainerRegistryImage.Rebase
    cases hl : i.image.Layers with
    | error e =>
      simp only [mutate.Rebase, hl]
      exact ⟨_, rfl⟩
    | ok all =>
      obtain ⟨e, he⟩ := subImage.scan_absent topLayer all [] (habsent all hl)
      simp only [mutate.Rebase, hl, subImage.Layers, he, checked]
      exact ⟨_, rfl⟩

end registry

namespace cnb

/-- **C11.** `ImageRebaser.Rebase` calls `previousImage.Rebase("", runImage)`: the top-layer
diff ID it passes is always the empty string. Hence, whenever the previous image that the
factory resolves is a `*GoContainerRegistryImage` none of whose layers has the empty string
as its diff ID, the call returns the zero-valued `BuiltImage` together with an error, and the
registry state after the call is the state before it (no `remote.Write` was made). This holds
for every world, every builder image, every label content, every run image and every
`readBuiltImage`: there is no such input on which the call succeeds. -/
theorem ImageRebaser_Rebase_always_fails_on_empty_top_layer (w : World) (js : Decoders)
    (otherRebase : registry.OtherRemoteImage → String → registry.RemoteImage → RegistryLog →
      Outcome (Option registry.RemoteImage × Option GoError) × RegistryLog)
    (readBuiltImage : Option registry.RemoteImage → Outcome (BuiltImage × Option GoError))
    (f : ImageRebaser) (builderRef previousImageRef : registry.ImageRef)
    (calls : List registry.ImageRef) (log : RegistryLog)
    (hprev : ∀ img,
      f.RemoteImageFactory.NewRemote (calls ++ [builderRef]) previousImageRef = .ok img →
      ∃ i, img = .ggcr i ∧ ∀ all, i.image.Layers = .ok all → ∀ l ∈ all, l.DiffID ≠ .ok "") :
    ∃ err calls1,
      ImageRebaser.Rebase w js otherRebase readBuiltImage f builderRef previousImageRef calls log
        = (.returns ({ Identifier := "", CompletedAt := 0, BuildpackMetadata := [],
                       RunImage := "" }, some err), calls1, log) := by
  cases hb : f.RemoteImageFactory.NewRemote calls builderRef with
  | error e =>
    refine ⟨e, calls ++ [builderRef], ?_⟩
    simp only [ImageRebaser.Rebase, hb, BuiltImage.zero]
  | ok builderImage =>
    cases hp : f.RemoteImageFactory.NewRemote (calls ++ [builderRef]) previousImageRef with
    | error e =>
      refine ⟨e, calls ++ [builderRef, previousImageRef], ?_⟩
      simp only [ImageRebaser.Rebase, hb, hp, BuiltImage.zero]
    | ok previousImage =>
      obtain ⟨i, rfl, hdiff⟩ := hprev previousImage hp
      rcases hlabel : builderImage.Label BuilderMetadataLabel with ⟨metadataJSON, _ | e⟩
      · cases hmd : jsonUnmarshal js.BuilderImageMetadata metadataJSON with
        | error e =>
          refine ⟨errorsWrap e "unsupported builder metadata structure",
            calls ++ [builderRef, previousImageRef], ?_⟩
          simp only [ImageRebaser.Rebase, hb, hp, hlabel, hmd, BuiltImage.zero]
        | ok metadata =>
          cases hr : f.RemoteImageFactory.NewRemote (calls ++ [builderRef, previousImageRef])
              (runImageRef.toImageRef
                { «namespace» := builderRef.Namespace
                  image := metadata.Stack.RunImage.Image
                  secretName := builderRef.SecretName }) with
          | error e =>
            refine ⟨errorsWrap e "unable to fetch remote run image",
              calls ++ [builderRef, previousImageRef,
                runImageRef.toImageRef
                  { «namespace» := builderRef.Namespace
                    image := metadata.Stack.RunImage.Image
                    secretName := builderRef.SecretName }], ?_⟩
            simp only [ImageRebaser.Rebase, hb, hp, hlabel, hmd, hr, BuiltImage.zero]
          | ok runImage =>
            obtain ⟨e, he⟩ :=
              registry.GoContainerRegistryImage.Rebase_without_boundary w i "" runImage log hdiff
            refine ⟨e,
              calls ++ [builderRef, previousImageRef,
                runImageRef.toImageRef
                  { «namespace» := builderRef.Namespace
                    image := metadata.Stack.RunImage.Image
                    secretName := builderRef.SecretName }], ?_⟩
            simp only [ImageRebaser.Rebase, hb, hp, hlabel, hmd, hr, registry.RemoteImage.Rebase,
              he, BuiltImage.zero]
      · refine ⟨errorsWrap e "builder image metadata label not present",
          calls ++ [builderRef, previousImageRef], ?_⟩
        simp only [ImageRebaser.Rebase, hb, hp, hlabel, BuiltImage.zero]

set_option maxRecDepth 100000 in
/-- Witness for C11: builder, previous image (layers `B1, B2, A1, A2`, all with non-empty
diff IDs) and run image all resolve and the builder label parses, with a `readBuiltImage`
that would succeed; the call still fails, with the boundary error of the sub-image view, and
the registry log stays empty. -/
theorem ImageRebaser_Rebase_always_fails_on_empty_top_layer_witness :
    (∃ err calls1,
      ImageRebaser.Rebase exampleRegistryWorld exampleJS exampleOtherRebase exampleReadBuiltImage
          { RemoteImageFactory := exampleRebaseFactory }
          (registry.NewNoAuthImageRef "builder/image") (registry.NewNoAuthImageRef "app/image")
          [] []
        = (.returns ({ Identifier := "", CompletedAt := 0, BuildpackMetadata := [],
                       RunImage := "" }, some err), calls1, []))
    ∧ (ImageRebaser.Rebase exampleRegistryWorld exampleJS exampleOtherRebase
          exampleReadBuiltImage { RemoteImageFactory := exampleRebaseFactory }
          (registry.NewNoAuthImageRef "builder/image") (registry.NewNoAuthImageRef "app/image")
          [] []).1
        = .returns ({ Identifier := "", CompletedAt := 0, BuildpackMetadata := [],
                      RunImage := "" }, some "rebase: could not find base layer in image") :=
  ⟨ImageRebaser_Rebase_always_fails_on_empty_top_layer exampleRegistryWorld exampleJS
      exampleOtherRebase exampleReadBuiltImage { RemoteImageFactory := exampleRebaseFactory }
      (registry.NewNoAuthImageRef "builder/image") (registry.NewNoAuthImageRef "app/image")
      [] []
      (by
        intro img himg
        refine ⟨exampleAccessor "app/image" exampleOriginal, (Except.ok.inj himg).symm, ?_⟩
        intro all hall l hl
        have hall2 : all = [⟨.ok "sha256:b1", .ok "diff:B1"⟩, ⟨.ok "sha256:b2", .ok "diff:B2"⟩,
            ⟨.ok "sha256:a1", .ok "diff:A1"⟩, ⟨.ok "sha256:a2", .ok "diff:A2"⟩] :=
          (Except.ok.inj hall).symm
        subst hall2
        simp at hl
        rcases hl with rfl | rfl | rfl | rfl <;> decide),
    by decide⟩

end cnb

end kpack
